import Mathlib

/-!
The luaio TCP socket core (`src/luaio_tcp.c`)

A shallow embedding of the coroutine-oriented TCP socket callbacks and
dispatchers of `luaio_tcp.c`.

* Pointers (`lua_State*`, `uv_timer_t*`, request blocks, buffer cursors) are
  natural-number addresses; a nullable timer pointer is an `Option`.
* Every call into an external collaborator (timer pool, request arena, VM
  registry, coroutine scheduler, reactor) is recorded, in program order, as an
  `Effect`. "Exactly once" properties are counts over the recorded effects.
* The answers of the collaborators (what `uv_try_write`, `luaio_timer_alloc`,
  `luaio_palloc`, `uv_write2`, ... return) are explicit inputs.
-/

namespace Luaio

/-! ## Constants of the collaborators (libuv errno space, Lua auxiliary library) -/

/-- The libuv code `UV_EAGAIN` (Linux value of `-EAGAIN`). -/
def UV_EAGAIN : Int := -11

/-- The libuv code `UV_ENOMEM` (Linux value of `-ENOMEM`). -/
def UV_ENOMEM : Int := -12

/-- The libuv code `UV_ENOSYS` (Linux value of `-ENOSYS`). -/
def UV_ENOSYS : Int := -38

/-- The libuv code `UV_ETIMEDOUT` (Linux value of `-ETIMEDOUT`). -/
def UV_ETIMEDOUT : Int := -110

/-- The Lua constant `LUA_NOREF` of `lauxlib.h`. -/
def LUA_NOREF : Int := -2

/-- A `lua_State*`; `0` is `NULL`. -/
abbrev Thread := Nat

/-- A `uv_timer_t*` handed out by the timer pool. -/
abbrev TimerPtr := Nat

/-- The address of a request block handed out by `luaio_palloc`. -/
abbrev ReqPtr := Nat

/-- The libuv slice `uv_buf_t`: `base` is an address, `len` a byte count. -/
structure uv_buf_t where
  base : Nat
  len : Nat
deriving DecidableEq, Repr

/-- Which timeout callback a timer was started with (`uv_timer_start`'s second argument). -/
inductive TimerCb where
  | connect_timeout
  | read_timeout
  | write_timeout
  | write_async_timeout
deriving DecidableEq, Repr

/-- Which completion callback a queued write was submitted with (`uv_write2`'s last argument). -/
inductive WriteCb where
  | after_write
  | after_write_async
deriving DecidableEq, Repr

/-- One call into an external collaborator, as made by the code. -/
inductive Effect where
  /-- The call `luaio_timer_alloc()` returned the timer `t`. -/
  | timer_alloc (t : TimerPtr)
  /-- The call `uv_timer_start(t, cb, timeout, 0)`. -/
  | timer_start (t : TimerPtr) (cb : TimerCb) (timeout : Nat)
  /-- The call `uv_timer_stop(t)`. -/
  | timer_stop (t : TimerPtr)
  /-- The call `luaio_timer_free(t)`: the timer goes back to the pool. -/
  | timer_free (t : TimerPtr)
  /-- The call `luaio_palloc(..)` returned the block `p`. -/
  | palloc (p : ReqPtr)
  /-- The call `luaio_pfree(p)`. -/
  | pfree (p : ReqPtr)
  /-- The call `luaL_ref(L, LUA_REGISTRYINDEX)` returned `r`. -/
  | ref (L : Thread) (r : Int)
  /-- The call `luaL_unref(L, LUA_REGISTRYINDEX, r)`. -/
  | unref (L : Thread) (r : Int)
  /-- The calls `lua_pushinteger(L, v)` for each `v` of `vals`, then `luaio_resume(L, vals.length)`. -/
  | resume (L : Thread) (vals : List Int)
  /-- The call `uv_tcp_connect(&p->req, ..)` with its result. -/
  | tcp_connect (p : ReqPtr) (err : Int)
  /-- The call `uv_read_start(..)` with its result. -/
  | read_start (err : Int)
  /-- The call `uv_read_stop(..)`. -/
  | read_stop
  /-- The call `uv_write2(&p->req, stream, bufs, vcount, NULL, cb)` with its result. -/
  | write2 (p : ReqPtr) (bufs : List uv_buf_t) (cb : WriteCb) (err : Int)
  /-- The call `luaio_stack_buffer_free(&stack_buf)`. -/
  | stack_buffer_free
  /-- The call `uv_close(handle, luaio_tcp_socket_onclose)`. -/
  | close
  /-- The call `uv_ip4_addr(host, port, &addr4)` with its result. -/
  | ip4_addr (port : Int) (err : Int)
  /-- The call `uv_ip6_addr(host, port, &addr6)` with its result. -/
  | ip6_addr (port : Int) (err : Int)
  /-- The call `uv_tcp_bind(&socket->handle, addr, 0, tcp_reuseport)` with its result. -/
  | tcp_bind (err : Int)
  /-- The call `uv_shutdown(p, stream, luaio_tcp_socket_after_shutdown)` with its result. -/
  | shutdown (p : ReqPtr) (err : Int)
  /-- The call `lua_newthread(L)` returned the coroutine `co`. -/
  | newthread (L : Thread) (co : Thread)
  /-- The call `uv_accept(handle, client_handle)` with its result. -/
  | accept (err : Int)
  /-- The call `uv_close(client_handle, NULL)` on a half-initialised child. -/
  | close_child
  /-- The call `fprintf(stderr, ..)`. -/
  | log_stderr
  /-- The call `luaio_resume(co, nargs)` with a function and its `nargs` arguments
  already on the stack of `co`. -/
  | resume_call (co : Thread) (nargs : Nat)
deriving DecidableEq, Repr

/-- How a dispatcher (a `lua_CFunction`) leaves: it returns the pushed integers,
it yields the calling coroutine (`return lua_yield(L, 0)`), or it raises. -/
inductive Outcome where
  | ret (vals : List Int)
  | yield
  /-- The call does not return: `luaL_error` / `luaL_argerror` raised a host error. -/
  | error
deriving DecidableEq, Repr

/-- The recurring block
`if (timer != NULL) { uv_timer_stop(timer); luaio_timer_free(timer); }`. -/
def stop_and_free : Option TimerPtr → List Effect
  | some t => [Effect.timer_stop t, Effect.timer_free t]
  | none => []

/-- The recurring block `if (tmp != NULL) { luaio_stack_buffer_free(&stack_buf); }`. -/
def free_scratch (tmp : Bool) : List Effect :=
  if tmp then [Effect.stack_buffer_free] else []

/-- The recurring block
`if (write_data_ref != LUA_NOREF) { luaL_unref(L, LUA_REGISTRYINDEX, write_data_ref); }`. -/
def unref_data (L : Thread) (write_data_ref : Int) : List Effect :=
  if write_data_ref ≠ LUA_NOREF then [Effect.unref L write_data_ref] else []

/-! ## `luaio_tcp_socket_try_write` (lines 410-443) -/

/-- The trimming loop of `luaio_tcp_socket_try_write` (lines 428-437):
`for (; written != 0 && vcount > 0; vbufs++, vcount--)`. The list is the array
`vbufs[0 .. vcount)`; the result is the array the advanced `vbufs`/`vcount` denote. -/
def trim : List uv_buf_t → Nat → List uv_buf_t
  | [], _ => []
  | b :: rest, written =>
    if written = 0 then b :: rest
    else if b.len > written then
      { base := b.base + written, len := b.len - written } :: rest
    else trim rest (written - b.len)

/-- What `luaio_tcp_socket_try_write` hands back: its return value and the
contents of the three in/out parameters `*bufs`/`*count` (one list) and `*written_bytes`. -/
structure TryWrite where
  err : Int
  bufs : List uv_buf_t
  written_bytes : Nat
deriving DecidableEq, Repr

/-- The function `luaio_tcp_socket_try_write`; `uv_try_write` is the result of
the reactor call `uv_try_write(handle, vbufs, vcount)`. -/
def luaio_tcp_socket_try_write (uv_try_write : Int) (bufs : List uv_buf_t)
    (written_bytes : Nat) : TryWrite :=
  let err := uv_try_write
  if err = UV_ENOSYS ∨ err = UV_EAGAIN then
    { err := 0, bufs := bufs, written_bytes := written_bytes }
  else if err < 0 then
    { err := err, bufs := bufs, written_bytes := written_bytes }
  else
    { err := 0, bufs := trim bufs err.toNat, written_bytes := err.toNat }

/-- Total byte length of an iovec. -/
def iovTotal (bufs : List uv_buf_t) : Nat :=
  (bufs.map (fun b => b.len)).sum

/-- The bytes a slice denotes in the memory `mem`. -/
def sliceBytes (mem : Nat → Nat) (b : uv_buf_t) : List Nat :=
  (List.range b.len).map (fun i => mem (b.base + i))

/-- The concatenated bytes an iovec denotes in the memory `mem`. -/
def iovBytes (mem : Nat → Nat) (bufs : List uv_buf_t) : List Nat :=
  (bufs.map (sliceBytes mem)).flatten

/-! ## Timer acquisition shared by connect, read, write and write_async -/

/-- The block `if (timeout != 0) { timer = luaio_timer_alloc(); if (timer == NULL) <fail>;
uv_timer_start(timer, cb, timeout, 0); }` (lines 216-229, 372-385, 527-545, 668-686).
`none` is the failure branch; otherwise the local `timer` and the calls made. -/
def arm_timer (timeout : Nat) (timer_alloc : Option TimerPtr) (cb : TimerCb) :
    Option (Option TimerPtr × List Effect) :=
  if timeout ≠ 0 then
    match timer_alloc with
    | none => none
    | some t => some (some t, [Effect.timer_alloc t, Effect.timer_start t cb timeout])
  else some (none, [])

/-! ## Data model (lines 12-38) -/

/-- The read buffer `luaio_buffer_t` (declared in `luaio.h`): the fields this file uses.
Cursors are addresses. -/
structure luaio_buffer_t where
  capacity : Nat
  size : Nat
  start : Nat
  read_pos : Nat
  write_pos : Nat
  end_ : Nat
deriving DecidableEq, Repr

/-- The socket `luaio_tcp_socket_t` (lines 12-22). `read_buffer` is the buffer the
pointer field refers to, `none` for `NULL`. -/
structure luaio_tcp_socket_t where
  timeout : Nat
  timer : Option TimerPtr
  thread : Thread
  current_thread : Thread
  read_buffer : Option luaio_buffer_t
  thread_ref : Int
  onconnect_ref : Int
deriving DecidableEq, Repr

/-- The connect request `luaio_tcp_connect_req_t` (lines 24-29). -/
structure luaio_tcp_connect_req_t where
  current_thread : Thread
  timer : Option TimerPtr
  timed_out : Int
deriving DecidableEq, Repr

/-- The write request `luaio_tcp_write_req_t` (lines 31-38). -/
structure luaio_tcp_write_req_t where
  current_thread : Thread
  timer : Option TimerPtr
  bytes : Nat
  write_data_ref : Int
  timed_out : Int
deriving DecidableEq, Repr

/-! ## connect (lines 181-267) -/

/-- The timer callback `luaio_tcp_socket_connect_timeout` (lines 181-191);
`luaio_req` is `handle->data`. -/
def luaio_tcp_socket_connect_timeout (handle : TimerPtr) (luaio_req : luaio_tcp_connect_req_t) :
    luaio_tcp_connect_req_t × List Effect :=
  let L := luaio_req.current_thread
  ({ luaio_req with timer := none, timed_out := 1 },
    [Effect.timer_free handle, Effect.resume L [UV_ETIMEDOUT]])

/-- The completion callback `luaio_tcp_socket_onconnect` (lines 193-209); `p` is the
address of the block `luaio_req` that `container_of` recovers. -/
def luaio_tcp_socket_onconnect (p : ReqPtr) (luaio_req : luaio_tcp_connect_req_t)
    (status : Int) : List Effect :=
  let L := luaio_req.current_thread
  let timed_out := luaio_req.timed_out
  stop_and_free luaio_req.timer ++ [Effect.pfree p] ++
    (if timed_out ≠ 0 then [] else [Effect.resume L [status]])

/-- What the collaborators answer during one `socket:connect` call. -/
structure ConnectEnv where
  timer_alloc : Option TimerPtr
  palloc : Option ReqPtr
  uv_tcp_connect : Int
deriving DecidableEq, Repr

/-- The result of one `socket:connect` call: how it leaves, the calls it made, and
the request block it left in flight (with its contents), if any. -/
structure ConnectCall where
  outcome : Outcome
  effects : List Effect
  req : Option (ReqPtr × luaio_tcp_connect_req_t)
deriving DecidableEq, Repr

/-- The dispatcher `luaio_tcp_socket_connect` (lines 212-267), after the socket and
address checks of lines 213-214. -/
def luaio_tcp_socket_connect (L : Thread) (socket : luaio_tcp_socket_t) (env : ConnectEnv) :
    ConnectCall :=
  match arm_timer socket.timeout env.timer_alloc TimerCb.connect_timeout with
  | none => { outcome := Outcome.ret [UV_ENOMEM], effects := [], req := none }
  | some (timer, armed) =>
    match env.palloc with
    | none =>
      { outcome := Outcome.ret [UV_ENOMEM], effects := armed ++ stop_and_free timer, req := none }
    | some p =>
      let err := env.uv_tcp_connect
      if err ≠ 0 then
        { outcome := Outcome.ret [err],
          effects := armed ++ [Effect.palloc p, Effect.tcp_connect p err] ++
            stop_and_free timer ++ [Effect.pfree p],
          req := none }
      else
        { outcome := Outcome.yield,
          effects := armed ++ [Effect.palloc p, Effect.tcp_connect p err],
          req := some (p, { current_thread := L, timer := timer, timed_out := 0 }) }

/-! ## write (lines 445-601) -/

/-- The timer callback `luaio_tcp_socket_write_timeout` (lines 445-461). -/
def luaio_tcp_socket_write_timeout (handle : TimerPtr) (luaio_req : luaio_tcp_write_req_t) :
    luaio_tcp_write_req_t × List Effect :=
  let L := luaio_req.current_thread
  ({ luaio_req with timer := none, timed_out := 1 },
    unref_data L luaio_req.write_data_ref ++
      [Effect.timer_free handle, Effect.resume L [0, UV_ETIMEDOUT]])

/-- The completion callback `luaio_tcp_socket_after_write` (lines 463-491). -/
def luaio_tcp_socket_after_write (p : ReqPtr) (luaio_req : luaio_tcp_write_req_t)
    (status : Int) : List Effect :=
  let L := luaio_req.current_thread
  let bytes := luaio_req.bytes
  let timed_out := luaio_req.timed_out
  stop_and_free luaio_req.timer ++ unref_data L luaio_req.write_data_ref ++ [Effect.pfree p] ++
    (if timed_out ≠ 0 then []
     else [Effect.resume L [if status ≠ 0 then 0 else (bytes : Int), status]])

/-- The locals the macro `luaio_check_data` (of `luaio_check_data.h`) leaves behind:
the iovec `bufs[0 .. count)`, the total `bytes`, and whether a stack scratch was
allocated (`tmp != NULL`). -/
structure CheckedData where
  bufs : List uv_buf_t
  bytes : Nat
  tmp : Bool
deriving DecidableEq, Repr

/-- What the collaborators answer during one `socket:write` / `socket:write_async`
call. `raw` is the content of the fresh, uninitialised block `luaio_palloc` returns. -/
structure WriteEnv where
  uv_try_write : Int
  timer_alloc : Option TimerPtr
  palloc : Option ReqPtr
  raw : luaio_tcp_write_req_t
  uv_write2 : Int
  luaL_ref : Int
deriving DecidableEq, Repr

/-- The result of one `socket:write` / `socket:write_async` call. -/
structure WriteCall where
  outcome : Outcome
  effects : List Effect
  req : Option (ReqPtr × luaio_tcp_write_req_t)
deriving DecidableEq, Repr

/-- The dispatcher `luaio_tcp_socket_write` (lines 494-601), after the socket and
data checks of lines 495-497. -/
def luaio_tcp_socket_write (L : Thread) (socket : luaio_tcp_socket_t) (d : CheckedData)
    (env : WriteEnv) : WriteCall :=
  let tw := luaio_tcp_socket_try_write env.uv_try_write d.bufs 0
  let written : Int := tw.written_bytes
  let vcount := tw.bufs.length
  if tw.err ≠ 0 then
    { outcome := Outcome.ret [0, tw.err], effects := free_scratch d.tmp, req := none }
  else if vcount = 0 then
    { outcome := Outcome.ret [written, 0], effects := free_scratch d.tmp, req := none }
  else
    match arm_timer socket.timeout env.timer_alloc TimerCb.write_timeout with
    | none =>
      { outcome := Outcome.ret [written, UV_ENOMEM], effects := free_scratch d.tmp, req := none }
    | some (timer, armed) =>
      match env.palloc with
      | none =>
        { outcome := Outcome.ret [written, UV_ENOMEM],
          effects := armed ++ free_scratch d.tmp ++ stop_and_free timer,
          req := none }
      | some p =>
        let err := env.uv_write2
        if err ≠ 0 then
          { outcome := Outcome.ret [written, err],
            effects := armed ++ [Effect.palloc p, Effect.write2 p tw.bufs WriteCb.after_write err] ++
              free_scratch d.tmp ++ stop_and_free timer ++ [Effect.pfree p],
            req := none }
        else
          { outcome := Outcome.yield,
            effects := armed ++ [Effect.palloc p, Effect.write2 p tw.bufs WriteCb.after_write err,
              Effect.ref L env.luaL_ref] ++ free_scratch d.tmp,
            req := some (p, { current_thread := L, timer := timer, bytes := d.bytes,
                              write_data_ref := env.luaL_ref, timed_out := 0 }) }

/-! ## write_async (lines 603-742) -/

/-- The timer callback `luaio_tcp_socket_write_async_timeout` (lines 603-614);
`main_thread` is what `luaio_get_main_thread()` returns. -/
def luaio_tcp_socket_write_async_timeout (main_thread : Thread) (handle : TimerPtr)
    (luaio_req : luaio_tcp_write_req_t) : luaio_tcp_write_req_t × List Effect :=
  let L := main_thread
  ({ luaio_req with timer := none },
    unref_data L luaio_req.write_data_ref ++ [Effect.timer_free handle])

/-- The completion callback `luaio_tcp_socket_after_write_async` (lines 616-632);
the `status` is not used. -/
def luaio_tcp_socket_after_write_async (main_thread : Thread) (p : ReqPtr)
    (luaio_req : luaio_tcp_write_req_t) (_status : Int) : List Effect :=
  let L := main_thread
  stop_and_free luaio_req.timer ++ unref_data L luaio_req.write_data_ref ++ [Effect.pfree p]

/-- The dispatcher `luaio_tcp_socket_write_async` (lines 635-742), after the socket
and data checks of lines 636-638. -/
def luaio_tcp_socket_write_async (L : Thread) (socket : luaio_tcp_socket_t) (d : CheckedData)
    (env : WriteEnv) : WriteCall :=
  let tw := luaio_tcp_socket_try_write env.uv_try_write d.bufs 0
  let written : Int := tw.written_bytes
  let vcount := tw.bufs.length
  if tw.err ≠ 0 then
    { outcome := Outcome.ret [0, tw.err], effects := free_scratch d.tmp, req := none }
  else if vcount = 0 then
    { outcome := Outcome.ret [written, 0], effects := free_scratch d.tmp, req := none }
  else
    match arm_timer socket.timeout env.timer_alloc TimerCb.write_async_timeout with
    | none =>
      { outcome := Outcome.ret [written, UV_ENOMEM], effects := free_scratch d.tmp, req := none }
    | some (timer, armed) =>
      match env.palloc with
      | none =>
        { outcome := Outcome.ret [written, UV_ENOMEM],
          effects := armed ++ free_scratch d.tmp ++ stop_and_free timer,
          req := none }
      | some p =>
        let err := env.uv_write2
        if err ≠ 0 then
          { outcome := Outcome.ret [written, err],
            effects := armed ++
              [Effect.palloc p, Effect.write2 p tw.bufs WriteCb.after_write_async err] ++
              free_scratch d.tmp ++ stop_and_free timer ++ [Effect.pfree p],
            req := none }
        else
          { outcome := Outcome.ret [(d.bytes : Int), 0],
            effects := armed ++
              [Effect.palloc p, Effect.write2 p tw.bufs WriteCb.after_write_async err,
               Effect.ref L env.luaL_ref] ++ free_scratch d.tmp,
            req := some (p, { env.raw with write_data_ref := env.luaL_ref,
                                           current_thread := 0, timer := timer }) }

/-! ## The reactor's side of one in-flight request

After a dispatcher has submitted a request, the reactor owes it one completion
callback, and, while the request's one-shot timer is active, may run the timer
callback first. `uv_timer_stop` deactivates the timer; a timer that has fired is
no longer active. -/

/-- The two callbacks wired to one kind of request. -/
structure Callbacks (R : Type) where
  on_timeout : TimerPtr → R → R × List Effect
  on_complete : ReqPtr → R → Int → List Effect

/-- The callbacks `socket:connect` installs. -/
def connect_callbacks : Callbacks luaio_tcp_connect_req_t where
  on_timeout := luaio_tcp_socket_connect_timeout
  on_complete := luaio_tcp_socket_onconnect

/-- The callbacks `socket:write` installs. -/
def write_callbacks : Callbacks luaio_tcp_write_req_t where
  on_timeout := luaio_tcp_socket_write_timeout
  on_complete := luaio_tcp_socket_after_write

/-- The callbacks `socket:write_async` installs. -/
def write_async_callbacks (main_thread : Thread) : Callbacks luaio_tcp_write_req_t where
  on_timeout := luaio_tcp_socket_write_async_timeout main_thread
  on_complete := luaio_tcp_socket_after_write_async main_thread

/-- One in-flight request as the reactor and the heap see it: the request block
(`none` once it was passed to `luaio_pfree`), the timer that is still active, and
whether the completion callback is still owed. -/
structure InFlight (R : Type) where
  block : Option (ReqPtr × R)
  armed : Option TimerPtr
  pending : Bool

/-- The events the reactor can deliver to an in-flight request. -/
inductive Event where
  | timeout
  | complete (status : Int)
deriving DecidableEq, Repr

/-- The active timer after a callback that made the calls `log`: `uv_timer_stop`
deactivates it. -/
def armed_after (armed : Option TimerPtr) (log : List Effect) : Option TimerPtr :=
  match armed with
  | some t => if Effect.timer_stop t ∈ log then none else some t
  | none => none

/-- Deliver one event. `none`: the reactor cannot deliver it in this state (the
timer is not active, the completion was already delivered), or the callback would
read a freed block. -/
def InFlight.fire {R : Type} (cb : Callbacks R) (s : InFlight R) :
    Event → Option (InFlight R × List Effect)
  | Event.timeout =>
    match s.armed, s.block with
    | some t, some (p, r) =>
      let out := cb.on_timeout t r
      some ({ block := some (p, out.1), armed := none, pending := s.pending }, out.2)
    | _, _ => none
  | Event.complete status =>
    if s.pending then
      match s.block with
      | some (p, r) =>
        let log := cb.on_complete p r status
        some ({ block := if Effect.pfree p ∈ log then none else some (p, r),
                armed := armed_after s.armed log, pending := false }, log)
      | none => none
    else none

/-- Deliver a sequence of events, collecting the calls made by the callbacks. -/
def InFlight.run {R : Type} (cb : Callbacks R) (s : InFlight R) :
    List Event → Option (InFlight R × List Effect)
  | [] => some (s, [])
  | e :: es =>
    match s.fire cb e with
    | none => none
    | some (s1, log1) =>
      match InFlight.run cb s1 es with
      | none => none
      | some (s2, log2) => some (s2, log1 ++ log2)

/-- The request a yielding `socket:connect` leaves with the reactor: the timer it
started, if any, is active and the completion is owed. -/
def ConnectCall.inflight (c : ConnectCall) : InFlight luaio_tcp_connect_req_t where
  block := c.req
  armed := match c.req with
    | some (_, r) => r.timer
    | none => none
  pending := c.req.isSome

/-- The request a queued `socket:write` / `socket:write_async` leaves with the reactor. -/
def WriteCall.inflight (c : WriteCall) : InFlight luaio_tcp_write_req_t where
  block := c.req
  armed := match c.req with
    | some (_, r) => r.timer
    | none => none
  pending := c.req.isSome

/-- The coroutine resumes recorded in a log, in order. -/
def resumes : List Effect → List (Thread × List Int)
  | [] => []
  | Effect.resume L vals :: rest => (L, vals) :: resumes rest
  | _ :: rest => resumes rest

/-- The registry references passed to `luaL_unref` in a log, in order. -/
def unrefs : List Effect → List Int
  | [] => []
  | Effect.unref _ r :: rest => r :: unrefs rest
  | _ :: rest => unrefs rest

/-- The timers passed to `luaio_timer_free` in a log, in order. -/
def timer_frees : List Effect → List TimerPtr
  | [] => []
  | Effect.timer_free t :: rest => t :: timer_frees rest
  | _ :: rest => timer_frees rest

/-- The request blocks passed to `luaio_pfree` in a log, in order. -/
def pfrees : List Effect → List ReqPtr
  | [] => []
  | Effect.pfree p :: rest => p :: pfrees rest
  | _ :: rest => pfrees rest

/-! ## read (lines 291-408) and close (lines 850-890) -/

/-- The timer callback `luaio_tcp_socket_read_timeout` (lines 291-300); `socket` is
`handle->data`. The socket is not written to. -/
def luaio_tcp_socket_read_timeout (handle : TimerPtr) (socket : luaio_tcp_socket_t) :
    List Effect :=
  let L := socket.current_thread
  [Effect.read_stop, Effect.timer_free handle, Effect.resume L [UV_ETIMEDOUT]]

/-- The buffer-request callback `luaio_tcp_socket_onalloc` (lines 302-338).
`pool` is the answer of the memory pool should the callback allocate: `none` when
`luaio_palloc(buffer_size)` returns `NULL`, else the block's address and what
`luaio_pmemory_get_capacity` reports for it. The result is the socket, the slice
written to `*buf` (`none` when `*buf` is left untouched) and the calls made;
`none` overall when `socket->read_buffer` is `NULL` (the dereference of line 309
is undefined). The pointer difference `end - write_pos` is exact whenever
`write_pos <= end`. -/
def luaio_tcp_socket_onalloc (socket : luaio_tcp_socket_t) (pool : Option (Nat × Nat)) :
    Option (luaio_tcp_socket_t × Option uv_buf_t × List Effect) :=
  let L := socket.current_thread
  match socket.read_buffer with
  | none => none
  | some buffer =>
    if buffer.capacity = 0 then
      match pool with
      | none =>
        some (socket, none,
          [Effect.read_stop] ++ stop_and_free socket.timer ++ [Effect.resume L [UV_ENOMEM]])
      | some (start, capacity) =>
        let buffer1 : luaio_buffer_t :=
          { buffer with capacity := capacity, start := start, read_pos := start,
                        write_pos := start, end_ := start + capacity }
        let write_pos := buffer1.write_pos
        some ({ socket with read_buffer := some buffer1 },
          some { base := write_pos, len := buffer1.end_ - write_pos }, [])
    else
      let write_pos := buffer.write_pos
      some (socket, some { base := write_pos, len := buffer.end_ - write_pos }, [])

/-- The read callback `luaio_tcp_socket_onread` (lines 340-362). `none` when
`nread > 0` and `socket->read_buffer` is `NULL` (line 357 dereferences it). -/
def luaio_tcp_socket_onread (socket : luaio_tcp_socket_t) (nread : Int) :
    Option (luaio_tcp_socket_t × List Effect) :=
  if nread = 0 then some (socket, [])
  else
    let L := socket.current_thread
    let stopped := [Effect.read_stop] ++ stop_and_free socket.timer
    if nread > 0 then
      match socket.read_buffer with
      | none => none
      | some buffer =>
        some ({ socket with
                  read_buffer := some { buffer with write_pos := buffer.write_pos + nread.toNat } },
          stopped ++ [Effect.resume L [nread]])
    else some (socket, stopped ++ [Effect.resume L [nread]])

/-- What the collaborators answer during one `socket:read` call. -/
structure ReadEnv where
  timer_alloc : Option TimerPtr
  uv_read_start : Int
deriving DecidableEq, Repr

/-- The dispatcher `luaio_tcp_socket_read` (lines 365-408), after the socket check. -/
def luaio_tcp_socket_read (L : Thread) (socket : luaio_tcp_socket_t) (env : ReadEnv) :
    luaio_tcp_socket_t × Outcome × List Effect :=
  match socket.read_buffer with
  | none => (socket, Outcome.error, [])
  | some _ =>
    match arm_timer socket.timeout env.timer_alloc TimerCb.read_timeout with
    | none => (socket, Outcome.ret [UV_ENOMEM], [])
    | some (timer, armed) =>
      let err := env.uv_read_start
      if err ≠ 0 then
        (socket, Outcome.ret [err], armed ++ [Effect.read_start err] ++ stop_and_free timer)
      else
        ({ socket with timer := timer, current_thread := L }, Outcome.yield,
          armed ++ [Effect.read_start err])

/-- The close-completion callback `luaio_tcp_socket_onclose` (lines 850-875). -/
def luaio_tcp_socket_onclose (socket : luaio_tcp_socket_t) :
    luaio_tcp_socket_t × List Effect :=
  let L := socket.current_thread
  let timer_log := stop_and_free socket.timer
  let onconnect_ref := socket.onconnect_ref
  let s1 := if onconnect_ref ≠ LUA_NOREF then { socket with onconnect_ref := LUA_NOREF } else socket
  let onconnect_log := if onconnect_ref ≠ LUA_NOREF then [Effect.unref L onconnect_ref] else []
  let thread_ref := s1.thread_ref
  let s2 := if thread_ref ≠ LUA_NOREF then { s1 with thread := 0, thread_ref := LUA_NOREF } else s1
  let thread_log := if thread_ref ≠ LUA_NOREF then [Effect.unref L thread_ref] else []
  (s2, timer_log ++ onconnect_log ++ thread_log ++ [Effect.resume L []])

/-- The dispatcher `luaio_tcp_socket_close` (lines 878-890), after the socket check;
`is_closing` is what `uv_is_closing(handle)` returns. -/
def luaio_tcp_socket_close (L : Thread) (socket : luaio_tcp_socket_t) (is_closing : Bool) :
    luaio_tcp_socket_t × Outcome × List Effect :=
  if is_closing then (socket, Outcome.error, [])
  else ({ socket with current_thread := L }, Outcome.yield, [Effect.close])

/-! ## The reactor's side of one socket (reads and close) -/

/-- A socket together with what the reactor knows about it: whether reads are
started (`uv_read_start` without a later `uv_read_stop`), the read timer that is
still active, and whether `uv_close` was called / its callback was delivered. -/
structure SockWorld where
  socket : luaio_tcp_socket_t
  reading : Bool
  armed : Option TimerPtr
  closing : Bool
  closed : Bool
deriving DecidableEq, Repr

/-- What can happen to a socket: the host calls `read` or `close`, or the reactor
delivers a callback. -/
inductive SockEvent where
  | read (L : Thread) (env : ReadEnv)
  | onalloc (pool : Option (Nat × Nat))
  | onread (nread : Int)
  | read_timeout
  | close (L : Thread)
  | onclose
deriving DecidableEq, Repr

/-- Whether reads are still started after a callback that made the calls `log`. -/
def reading_after (reading : Bool) (log : List Effect) : Bool :=
  reading && !(decide (Effect.read_stop ∈ log))

/-- One step of a socket's life. `none`: the event cannot happen in this state (a
callback of a stopped read, of an inactive timer, of a socket not closing; a call
on a closing socket that raises) or the callback's behaviour is undefined. -/
def SockWorld.step (w : SockWorld) : SockEvent → Option (SockWorld × List Effect)
  | SockEvent.read L env =>
    if w.closing || w.closed || w.reading then none
    else
      match luaio_tcp_socket_read L w.socket env with
      | (s, Outcome.yield, log) =>
        some ({ w with socket := s, reading := true, armed := s.timer }, log)
      | (s, _, log) => some ({ w with socket := s }, log)
  | SockEvent.onalloc pool =>
    if w.reading then
      match luaio_tcp_socket_onalloc w.socket pool with
      | some (s, _, log) =>
        some ({ w with socket := s, reading := reading_after w.reading log,
                       armed := armed_after w.armed log }, log)
      | none => none
    else none
  | SockEvent.onread nread =>
    if w.reading then
      match luaio_tcp_socket_onread w.socket nread with
      | some (s, log) =>
        some ({ w with socket := s, reading := reading_after w.reading log,
                       armed := armed_after w.armed log }, log)
      | none => none
    else none
  | SockEvent.read_timeout =>
    match w.armed with
    | some t =>
      let log := luaio_tcp_socket_read_timeout t w.socket
      some ({ w with reading := reading_after w.reading log, armed := none }, log)
    | none => none
  | SockEvent.close L =>
    if w.closed then none
    else
      match luaio_tcp_socket_close L w.socket w.closing with
      | (s, Outcome.yield, log) =>
        some ({ w with socket := s, reading := false, closing := true }, log)
      | (_, _, _) => none
  | SockEvent.onclose =>
    if w.closing then
      let out := luaio_tcp_socket_onclose w.socket
      some ({ w with socket := out.1, closing := false, closed := true }, out.2)
    else none

/-- A sequence of steps, collecting the calls made. -/
def SockWorld.run (w : SockWorld) : List SockEvent → Option (SockWorld × List Effect)
  | [] => some (w, [])
  | e :: es =>
    match w.step e with
    | none => none
    | some (w1, log1) =>
      match SockWorld.run w1 es with
      | none => none
      | some (w2, log2) => some (w2, log1 ++ log2)

/-- An idle socket, not closing, as the reactor sees it. -/
def SockWorld.idle (socket : luaio_tcp_socket_t) : SockWorld where
  socket := socket
  reading := false
  armed := none
  closing := false
  closed := false

/-! ## The read buffer under the buffer-request and read callbacks -/

/-- The cursor order `start <= read_pos <= write_pos <= end` of a read buffer. -/
def luaio_buffer_t.ordered (b : luaio_buffer_t) : Prop :=
  b.start ≤ b.read_pos ∧ b.read_pos ≤ b.write_pos ∧ b.write_pos ≤ b.end_

instance (b : luaio_buffer_t) : Decidable b.ordered := by
  unfold luaio_buffer_t.ordered; infer_instance

/-- What happens to the read buffer of a socket: the host calls `socket:read()`, which
starts reads, or the reactor delivers one of the two callbacks that touch the buffer. -/
inductive BufEvent where
  | read (L : Thread) (env : ReadEnv)
  | onalloc (pool : Option (Nat × Nat))
  | onread (nread : Int)
deriving DecidableEq, Repr

/-- A socket together with what the reactor knows about its reads: whether reads
are started (`uv_read_start` without a later `uv_read_stop`), the fill slice last
handed to the reactor through `*buf` (`none`: nothing was handed over yet, or the
last buffer request left `*buf` untouched), and whether the reactor still holds that
slice (`fresh`: a buffer request handed it over and no read callback has returned
it since). -/
structure BufWorld where
  socket : luaio_tcp_socket_t
  reading : Bool
  exposed : Option uv_buf_t
  fresh : Bool
deriving DecidableEq, Repr

/-- An idle socket: reads are not started and the reactor holds no fill slice. -/
def BufWorld.init (socket : luaio_tcp_socket_t) : BufWorld where
  socket := socket
  reading := false
  exposed := none
  fresh := false

/-- One step. The reactor delivers the buffer-request callback only while reads are
started, and the read callback only while reads are started and it holds a slice
from the buffer request that precedes the read (it calls the buffer request before
every read callback); the host calls `socket:read()` only while no read is in flight.
`none`: the event cannot happen in this state, or the callback's behaviour is
undefined. -/
def BufWorld.step (w : BufWorld) : BufEvent → Option BufWorld
  | BufEvent.read L env =>
    if w.reading then none
    else
      match luaio_tcp_socket_read L w.socket env with
      | (s, Outcome.yield, _) =>
        some { socket := s, reading := true, exposed := w.exposed, fresh := false }
      | (s, _, _) =>
        some { socket := s, reading := false, exposed := w.exposed, fresh := false }
  | BufEvent.onalloc pool =>
    if w.reading then
      match luaio_tcp_socket_onalloc w.socket pool with
      | some (s, buf, log) =>
        some { socket := s, reading := reading_after w.reading log, exposed := buf,
               fresh := reading_after w.reading log }
      | none => none
    else none
  | BufEvent.onread nread =>
    if w.reading && w.fresh then
      match luaio_tcp_socket_onread w.socket nread with
      | some (s, log) =>
        some { socket := s, reading := reading_after w.reading log, exposed := w.exposed,
               fresh := false }
      | none => none
    else none

/-- Deliver a sequence of events. -/
def BufWorld.run (w : BufWorld) : List BufEvent → Option BufWorld
  | [] => some w
  | e :: es =>
    match w.step e with
    | some w1 => BufWorld.run w1 es
    | none => none

/-- Length of the fill slice last handed to the reactor (`0` when there is none). -/
def BufWorld.exposed_len (w : BufWorld) : Nat :=
  match w.exposed with
  | some b => b.len
  | none => 0

/-- The bound on `nread`: a read callback reports at most the length of the fill slice
last handed to the reactor. -/
def BufWorld.fits_last (w : BufWorld) : BufEvent → Bool
  | BufEvent.read _ _ => true
  | BufEvent.onalloc _ => true
  | BufEvent.onread nread => decide (nread ≤ (w.exposed_len : Int))

/-- Every event of the sequence satisfies the bound `fits` in the state it happens
in. -/
def BufWorld.allows (fits : BufWorld → BufEvent → Bool) (w : BufWorld) : List BufEvent → Bool
  | [] => true
  | e :: es =>
    fits w e &&
      match w.step e with
      | some w1 => BufWorld.allows fits w1 es
      | none => true

/-- The invariant carried along a sequence of buffer events: a buffer is bound, its
cursors are ordered once it is allocated, and a fill slice the reactor still holds is
no longer than the room left behind `write_pos`. -/
def BufWorld.inv (w : BufWorld) : Prop :=
  ∃ b, w.socket.read_buffer = some b ∧ (b.capacity ≠ 0 → b.ordered) ∧
    (w.fresh = true →
      w.exposed_len ≤ b.end_ - b.write_pos ∧ (0 < w.exposed_len → b.capacity ≠ 0))

/-- The buffer as lines 326-332 of `luaio_tcp_socket_onalloc` leave it. -/
def luaio_buffer_t.allocated (b : luaio_buffer_t) (start capacity : Nat) : luaio_buffer_t :=
  { b with capacity := capacity, start := start, read_pos := start, write_pos := start,
           end_ := start + capacity }

/-- The buffer as line 357 of `luaio_tcp_socket_onread` leaves it. -/
def luaio_buffer_t.advanced (b : luaio_buffer_t) (n : Nat) : luaio_buffer_t :=
  { b with write_pos := b.write_pos + n }

/-! ## Port and host check, bind (lines 83-113) -/

/-- The conversion in `int port = luaL_checkinteger(L, 2)` (line 84): a 64-bit
`lua_Integer` is narrowed to a 32-bit `int`, which keeps the low 32 bits in two's
complement. -/
def to_int32 (v : Int) : Int :=
  (v + 2 ^ 31) % 2 ^ 32 - 2 ^ 31

/-- Whether `v` is a 64-bit Lua integer. -/
def is_lua_Integer (v : Int) : Prop :=
  -(2 ^ 63) ≤ v ∧ v < 2 ^ 63

instance (v : Int) : Decidable (is_lua_Integer v) := by
  unfold is_lua_Integer; infer_instance

/-- What the address parsers answer for the host string: the results of
`uv_ip4_addr(host, port, &addr4)` and `uv_ip6_addr(host, port, &addr6)`. -/
structure AddrEnv where
  uv_ip4_addr : Int
  uv_ip6_addr : Int
deriving DecidableEq, Repr

/-- How the macro `luaio_tcp_check_port_and_host` leaves: with `luaL_argerror(L, arg, ..)`,
or with the local `port` and an address of family 4 or 6. -/
inductive PortHost where
  | argerror (arg : Nat)
  | addr (family : Nat) (port : Int)
deriving DecidableEq, Repr

/-- The macro `luaio_tcp_check_port_and_host` (lines 83-99); `port_arg` is the Lua
integer at argument 2. -/
def luaio_tcp_check_port_and_host (port_arg : Int) (env : AddrEnv) : PortHost × List Effect :=
  let port := to_int32 port_arg
  if port < 0 ∨ port > 65535 then (PortHost.argerror 2, [])
  else if env.uv_ip4_addr = 0 then
    (PortHost.addr 4 port, [Effect.ip4_addr port env.uv_ip4_addr])
  else if env.uv_ip6_addr = 0 then
    (PortHost.addr 6 port,
      [Effect.ip4_addr port env.uv_ip4_addr, Effect.ip6_addr port env.uv_ip6_addr])
  else
    (PortHost.argerror 3,
      [Effect.ip4_addr port env.uv_ip4_addr, Effect.ip6_addr port env.uv_ip6_addr])

/-- The dispatcher `luaio_tcp_socket_bind` (lines 102-113), after the socket check;
`uv_tcp_bind` is the result of the reactor call. -/
def luaio_tcp_socket_bind (port_arg : Int) (env : AddrEnv) (uv_tcp_bind : Int) :
    Outcome × List Effect :=
  match luaio_tcp_check_port_and_host port_arg env with
  | (PortHost.argerror _, log) => (Outcome.error, log)
  | (PortHost.addr _ _, log) =>
    let err := uv_tcp_bind
    (Outcome.ret [err], log ++ [Effect.tcp_bind err])

/-- The dispatcher `luaio_tcp_socket_connect` from its entry (lines 212-267): the
port and host check of line 214, then the body `luaio_tcp_socket_connect`. -/
def luaio_tcp_socket_connect_entry (L : Thread) (socket : luaio_tcp_socket_t) (port_arg : Int)
    (aenv : AddrEnv) (env : ConnectEnv) : ConnectCall :=
  match luaio_tcp_check_port_and_host port_arg aenv with
  | (PortHost.argerror _, log) => { outcome := Outcome.error, effects := log, req := none }
  | (PortHost.addr _ _, log) =>
    let call := luaio_tcp_socket_connect L socket env
    { call with effects := log ++ call.effects }

/-! ## shutdown (lines 820-848) -/

/-- The completion callback `luaio_tcp_socket_after_shutdown` (lines 820-825); `L` is
`req->data`. -/
def luaio_tcp_socket_after_shutdown (req : ReqPtr) (L : Thread) (status : Int) : List Effect :=
  [Effect.pfree req, Effect.resume L [status]]

/-- What the collaborators answer during one `socket:shutdown` call. -/
structure ShutdownEnv where
  palloc : Option ReqPtr
  uv_shutdown : Int
deriving DecidableEq, Repr

/-- The result of one `socket:shutdown` call; `req` is the block left in flight with
the coroutine stored in its `data` field. -/
structure ShutdownCall where
  outcome : Outcome
  effects : List Effect
  req : Option (ReqPtr × Thread)
deriving DecidableEq, Repr

/-- The dispatcher `luaio_tcp_socket_shutdown` (lines 828-848), after the socket check. -/
def luaio_tcp_socket_shutdown (L : Thread) (env : ShutdownEnv) : ShutdownCall :=
  match env.palloc with
  | none => { outcome := Outcome.ret [UV_ENOMEM], effects := [], req := none }
  | some req =>
    let err := env.uv_shutdown
    if err ≠ 0 then
      { outcome := Outcome.ret [err],
        effects := [Effect.palloc req, Effect.shutdown req err, Effect.pfree req],
        req := none }
    else
      { outcome := Outcome.yield,
        effects := [Effect.palloc req, Effect.shutdown req err],
        req := some (req, L) }

/-! ## The accept callback (lines 115-161) -/

/-- What the collaborators answer during one accept callback: the coroutine
`lua_newthread` creates, the reference `luaL_ref` returns for it, whether
`lua_newuserdata` returned a block (`socket != NULL`), and the result of `uv_accept`. -/
structure AcceptEnv where
  lua_newthread : Thread
  luaL_ref : Int
  lua_newuserdata : Bool
  uv_accept : Int
deriving DecidableEq, Repr

/-- The result of one accept callback: the calls made and the child socket it
initialised and handed to the new coroutine, if any. -/
structure AcceptCall where
  effects : List Effect
  child : Option luaio_tcp_socket_t
deriving DecidableEq, Repr

/-- The accept callback `luaio_tcp_server_onconnect` (lines 115-161); `server` is the
listening socket `container_of` recovers. The local `thread_ref` is written to no
field: the child gets `thread_ref = LUA_NOREF` (line 154). -/
def luaio_tcp_server_onconnect (server : luaio_tcp_socket_t) (status : Int) (env : AcceptEnv) :
    AcceptCall :=
  if status ≠ 0 then { effects := [Effect.log_stderr], child := none }
  else
    let L := server.thread
    let co := env.lua_newthread
    let thread_ref := env.luaL_ref
    let spawned := [Effect.newthread L co, Effect.ref L thread_ref]
    if env.lua_newuserdata = false then
      { effects := spawned ++ [Effect.unref L thread_ref, Effect.log_stderr], child := none }
    else
      let err := env.uv_accept
      if err ≠ 0 then
        { effects := spawned ++ [Effect.accept err, Effect.unref L thread_ref,
            Effect.close_child, Effect.log_stderr],
          child := none }
      else
        { effects := spawned ++ [Effect.accept err, Effect.resume_call co 1],
          child := some { timeout := server.timeout, timer := none, thread := co,
                          current_thread := co, read_buffer := none,
                          thread_ref := LUA_NOREF, onconnect_ref := LUA_NOREF } }

/-! ## Resources acquired and released in a log -/

/-- The timers `luaio_timer_alloc` handed out in a log, in order. -/
def timer_allocs : List Effect → List TimerPtr
  | [] => []
  | Effect.timer_alloc t :: rest => t :: timer_allocs rest
  | _ :: rest => timer_allocs rest

/-- The request blocks `luaio_palloc` handed out in a log, in order. -/
def pallocs : List Effect → List ReqPtr
  | [] => []
  | Effect.palloc p :: rest => p :: pallocs rest
  | _ :: rest => pallocs rest

/-- The registry references `luaL_ref` handed out in a log, in order. -/
def refs : List Effect → List Int
  | [] => []
  | Effect.ref _ r :: rest => r :: refs rest
  | _ :: rest => refs rest

/-- The coroutines started through `luaio_resume(co, nargs)` with a function on
their stack, in order. -/
def resume_calls : List Effect → List Thread
  | [] => []
  | Effect.resume_call co _ :: rest => co :: resume_calls rest
  | _ :: rest => resume_calls rest

/-- Every timer and every request block acquired in the log is released in it, each
exactly once: the acquisitions and the releases are the same duplicate-free lists, so
the numbers in use after the log are those before it. -/
def released_all (log : List Effect) : Prop :=
  timer_allocs log = timer_frees log ∧ (timer_frees log).Nodup ∧
  pallocs log = pfrees log ∧ (pfrees log).Nodup

instance (log : List Effect) : Decidable (released_all log) := by
  unfold released_all; infer_instance

/-! ## Concrete inputs used in evaluations -/

/-- A socket with a 50 ms timeout and an unallocated read buffer of size hint 4. -/
def sample_socket : luaio_tcp_socket_t where
  timeout := 50
  timer := none
  thread := 1
  current_thread := 1
  read_buffer := some { capacity := 0, size := 4, start := 0, read_pos := 0, write_pos := 0, end_ := 0 }
  thread_ref := LUA_NOREF
  onconnect_ref := LUA_NOREF

/-- Collaborator answers for a connect: timer 7, request block 9, submit succeeds. -/
def sample_connect_env : ConnectEnv where
  timer_alloc := some 7
  palloc := some 9
  uv_tcp_connect := 0

/-- Collaborator answers for a write: `uv_try_write` accepts `accepted` bytes, timer 7,
request block 9, submit succeeds, the data is anchored under reference 3. -/
def sample_write_env (accepted : Int) : WriteEnv where
  uv_try_write := accepted
  timer_alloc := some 7
  palloc := some 9
  raw := { current_thread := 0, timer := none, bytes := 0, write_data_ref := 0, timed_out := 0 }
  uv_write2 := 0
  luaL_ref := 3

/-- The data of a single 4-byte string at address 1000. -/
def sample_data : CheckedData where
  bufs := [{ base := 1000, len := 4 }]
  bytes := 4
  tmp := false

/-- The data of a list of two strings, a 2-byte string at address 1000 and an empty
string at address 2000. -/
def sample_data_empty_tail : CheckedData where
  bufs := [{ base := 1000, len := 2 }, { base := 2000, len := 0 }]
  bytes := 2
  tmp := false

/-- Collaborator answers for a read: timer 7, `uv_read_start` succeeds. -/
def sample_read_env : ReadEnv where
  timer_alloc := some 7
  uv_read_start := 0

/-- The host string parses as an IPv4 literal. -/
def sample_addr_env : AddrEnv where
  uv_ip4_addr := 0
  uv_ip6_addr := -22

/-- A listening socket created by coroutine 1 with `tcp.new(true)`: its coroutine is
anchored under reference 4 and its accept callback under reference 6. -/
def sample_server : luaio_tcp_socket_t where
  timeout := 50
  timer := none
  thread := 1
  current_thread := 1
  read_buffer := none
  thread_ref := 4
  onconnect_ref := 6

/-- Collaborator answers for an accept: the new coroutine is 2, anchored under
reference 5, the child socket is created and `uv_accept` succeeds. -/
def sample_accept_env : AcceptEnv where
  lua_newthread := 2
  luaL_ref := 5
  lua_newuserdata := true
  uv_accept := 0

/-! ## Lemmas on the trimming loop -/

theorem iovTotal_cons (b : uv_buf_t) (rest : List uv_buf_t) :
    iovTotal (b :: rest) = b.len + iovTotal rest := by
  simp [iovTotal]

theorem iovBytes_cons (mem : Nat → Nat) (b : uv_buf_t) (rest : List uv_buf_t) :
    iovBytes mem (b :: rest) = sliceBytes mem b ++ iovBytes mem rest := by
  simp [iovBytes]

theorem sliceBytes_length (mem : Nat → Nat) (b : uv_buf_t) :
    (sliceBytes mem b).length = b.len := by
  simp [sliceBytes]

theorem sliceBytes_advance (mem : Nat → Nat) (b : uv_buf_t) (c : Nat) :
    sliceBytes mem { base := b.base + c, len := b.len - c } = (sliceBytes mem b).drop c := by
  apply List.ext_getElem
  · simp [sliceBytes]
  · intro i h1 h2
    simp [sliceBytes, List.getElem_drop]
    congr 1
    omega

theorem trim_bytes (mem : Nat → Nat) (bufs : List uv_buf_t) :
    ∀ n, n ≤ iovTotal bufs → iovBytes mem (trim bufs n) = (iovBytes mem bufs).drop n := by
  induction bufs with
  | nil => intro n hn; simp [trim, iovBytes]
  | cons b rest ih =>
    intro n hn
    rw [iovTotal_cons] at hn
    unfold trim
    by_cases h0 : n = 0
    · simp [h0]
    · rw [if_neg h0]
      by_cases hlt : b.len > n
      · rw [if_pos hlt, iovBytes_cons, iovBytes_cons, sliceBytes_advance mem b n]
        rw [List.drop_append_of_le_length (by rw [sliceBytes_length]; omega)]
      · rw [if_neg hlt, ih (n - b.len) (by omega), iovBytes_cons]
        rw [List.drop_append_eq_append_drop, sliceBytes_length]
        have hnil : List.drop n (sliceBytes mem b) = [] :=
          List.drop_of_length_le (by rw [sliceBytes_length]; omega)
        rw [hnil, List.nil_append]

theorem iovTotal_take_succ (b : uv_buf_t) (rest : List uv_buf_t) (k : Nat) :
    iovTotal ((b :: rest).take (k + 1)) = b.len + iovTotal (rest.take k) := by
  simp [iovTotal]

theorem len_le_iovTotal_take (bufs : List uv_buf_t) :
    ∀ i, ∀ h : i < bufs.length, (bufs.get ⟨i, h⟩).len ≤ iovTotal (bufs.take (i + 1)) := by
  induction bufs with
  | nil => intro i h; simp at h
  | cons b rest ih =>
    intro i h
    rw [iovTotal_take_succ]
    cases i with
    | zero => simp
    | succ j =>
      have hj : j < rest.length := by simpa using h
      have := ih j hj
      simp only [List.get_eq_getElem, List.getElem_cons_succ] at this ⊢
      omega

theorem trim_shape (bufs : List uv_buf_t) :
    ∀ n, n ≤ iovTotal bufs →
      ∃ k c, k ≤ bufs.length ∧ iovTotal (bufs.take k) + c = n ∧
        ((c = 0 ∧ trim bufs n = bufs.drop k) ∨
          (0 < c ∧ ∃ b rest, bufs.drop k = b :: rest ∧ c < b.len ∧
            trim bufs n = { base := b.base + c, len := b.len - c } :: rest)) ∧
        (∀ i, ∀ h : i < bufs.length,
          0 < (bufs.get ⟨i, h⟩).len → iovTotal (bufs.take (i + 1)) ≤ n → i < k) := by
  induction bufs with
  | nil =>
    intro n hn
    refine ⟨0, 0, ?_⟩
    simp [iovTotal] at hn
    simp [trim, iovTotal, hn]
  | cons b rest ih =>
    intro n hn
    rw [iovTotal_cons] at hn
    by_cases h0 : n = 0
    · refine ⟨0, 0, Nat.zero_le _, by simp [iovTotal, h0], Or.inl ⟨rfl, by simp [trim, h0]⟩, ?_⟩
      intro i h hpos hle
      have := len_le_iovTotal_take (b :: rest) i h
      omega
    · by_cases hlt : b.len > n
      · refine ⟨0, n, Nat.zero_le _, by simp [iovTotal], Or.inr ⟨by omega, b, rest, rfl, hlt, ?_⟩, ?_⟩
        · simp [trim, h0, hlt]
        · intro i h hpos hle
          rw [iovTotal_take_succ] at hle
          omega
      · obtain ⟨k, c, hk, hsum, hshape, hall⟩ := ih (n - b.len) (by omega)
        have htrim : trim (b :: rest) n = trim rest (n - b.len) := by
          simp [trim, h0, hlt]
        have hsum1 : iovTotal ((b :: rest).take (k + 1)) + c = n := by
          rw [iovTotal_take_succ]; clear hshape hall ih; omega
        refine ⟨k + 1, c, by simpa using hk, hsum1, ?_, ?_⟩
        · rcases hshape with ⟨hc, hd⟩ | ⟨hc, b1, rest1, hd, hlen, ht⟩
          · exact Or.inl ⟨hc, by rw [htrim, hd]; rfl⟩
          · exact Or.inr ⟨hc, b1, rest1, by simpa using hd, hlen, by rw [htrim, ht]⟩
        · intro i h hpos hle
          cases i with
          | zero => omega
          | succ j =>
            have hj : j < rest.length := by simpa using h
            rw [iovTotal_take_succ] at hle
            have := hall j hj (by simpa using hpos) (by omega)
            omega

theorem try_write_accepts (n : Nat) (bufs : List uv_buf_t) (w0 : Nat) :
    luaio_tcp_socket_try_write (n : Int) bufs w0 =
      { err := 0, bufs := trim bufs n, written_bytes := n } := by
  have h1 : ¬ ((n : Int) = UV_ENOSYS ∨ (n : Int) = UV_EAGAIN) := by
    simp only [UV_ENOSYS, UV_EAGAIN]; omega
  have h2 : ¬ ((n : Int) < 0) := by omega
  simp only [luaio_tcp_socket_try_write, if_neg h1, if_neg h2, Int.toNat_ofNat]

theorem trim_zero (bufs : List uv_buf_t) : trim bufs 0 = bufs := by
  cases bufs <;> simp [trim]

/-- A rejection with `UV_EAGAIN` or `UV_ENOSYS` leaves everything as it was. -/
theorem try_write_would_block (err : Int) (bufs : List uv_buf_t) (w0 : Nat)
    (h : err = UV_EAGAIN ∨ err = UV_ENOSYS) :
    luaio_tcp_socket_try_write err bufs w0 = { err := 0, bufs := bufs, written_bytes := w0 } := by
  have h1 : err = UV_ENOSYS ∨ err = UV_EAGAIN := h.symm
  simp [luaio_tcp_socket_try_write, h1]

/-- Any other negative result is handed back, with everything as it was. -/
theorem try_write_fails (err : Int) (bufs : List uv_buf_t) (w0 : Nat)
    (hneg : err < 0) (h1 : err ≠ UV_EAGAIN) (h2 : err ≠ UV_ENOSYS) :
    luaio_tcp_socket_try_write err bufs w0
      = { err := err, bufs := bufs, written_bytes := w0 } := by
  simp [luaio_tcp_socket_try_write, h1, h2, hneg]

/-! ## Lemmas on logs and schedules -/

theorem resumes_append (a b : List Effect) : resumes (a ++ b) = resumes a ++ resumes b := by
  induction a with
  | nil => rfl
  | cons e rest ih => cases e <;> simp [resumes, ih]

theorem unrefs_append (a b : List Effect) : unrefs (a ++ b) = unrefs a ++ unrefs b := by
  induction a with
  | nil => rfl
  | cons e rest ih => cases e <;> simp [unrefs, ih]

theorem timer_frees_append (a b : List Effect) :
    timer_frees (a ++ b) = timer_frees a ++ timer_frees b := by
  induction a with
  | nil => rfl
  | cons e rest ih => cases e <;> simp [timer_frees, ih]

theorem pfrees_append (a b : List Effect) : pfrees (a ++ b) = pfrees a ++ pfrees b := by
  induction a with
  | nil => rfl
  | cons e rest ih => cases e <;> simp [pfrees, ih]

/-- The in-flight request after its completion callback made the calls `log`. -/
theorem run_complete {R : Type} (cb : Callbacks R) (p : ReqPtr) (r : R)
    (armed : Option TimerPtr) (status : Int) :
    InFlight.run cb { block := some (p, r), armed := armed, pending := true }
        [Event.complete status]
      = some ({ block := if Effect.pfree p ∈ cb.on_complete p r status then none
                         else some (p, r),
                armed := armed_after armed (cb.on_complete p r status),
                pending := false },
              cb.on_complete p r status) := by
  simp [InFlight.run, InFlight.fire]

/-- The timeout delivered first, the completion later: the completion callback sees
the block as the timeout callback left it. -/
theorem run_timeout_complete {R : Type} (cb : Callbacks R) (p : ReqPtr) (r : R)
    (t : TimerPtr) (status : Int) :
    InFlight.run cb { block := some (p, r), armed := some t, pending := true }
        [Event.timeout, Event.complete status]
      = some ({ block := if Effect.pfree p ∈ cb.on_complete p (cb.on_timeout t r).1 status
                         then none else some (p, (cb.on_timeout t r).1),
                armed := none,
                pending := false },
              (cb.on_timeout t r).2 ++ cb.on_complete p (cb.on_timeout t r).1 status) := by
  simp [InFlight.run, InFlight.fire, armed_after]

/-- Once the completion was delivered and no timer is active, the reactor has no
callback left to deliver. -/
theorem fire_done {R : Type} (cb : Callbacks R) (s : InFlight R) (harmed : s.armed = none)
    (hpending : s.pending = false) (e : Event) : s.fire cb e = none := by
  cases e <;> simp [InFlight.fire, harmed, hpending]

/-- What a `socket:connect` call that leaves a request in flight has done. -/
theorem connect_req_some (L : Thread) (socket : luaio_tcp_socket_t) (env : ConnectEnv)
    (p : ReqPtr) (r : luaio_tcp_connect_req_t)
    (h : (luaio_tcp_socket_connect L socket env).req = some (p, r)) :
    (luaio_tcp_socket_connect L socket env).outcome = Outcome.yield ∧
    r.current_thread = L ∧ r.timed_out = 0 ∧
    (luaio_tcp_socket_connect L socket env).inflight
      = { block := some (p, r), armed := r.timer, pending := true } := by
  have hin : (luaio_tcp_socket_connect L socket env).inflight
      = { block := some (p, r), armed := r.timer, pending := true } := by
    simp [ConnectCall.inflight, h]
  refine ⟨?_, ?_, ?_, hin⟩ <;>
  · clear hin
    simp only [luaio_tcp_socket_connect] at h ⊢
    cases harm : arm_timer socket.timeout env.timer_alloc TimerCb.connect_timeout with
    | none => simp [harm] at h
    | some ta =>
      obtain ⟨timer, armed⟩ := ta
      cases hp : env.palloc with
      | none => simp [harm, hp] at h
      | some q =>
        by_cases he : env.uv_tcp_connect = 0
        · simp [harm, hp, he] at h ⊢
          try (rw [← h.2])
        · simp [harm, hp, he] at h

/-- What a `socket:write` call that leaves a request in flight has done. -/
theorem write_req_some (L : Thread) (socket : luaio_tcp_socket_t) (d : CheckedData)
    (env : WriteEnv) (p : ReqPtr) (r : luaio_tcp_write_req_t)
    (h : (luaio_tcp_socket_write L socket d env).req = some (p, r)) :
    (luaio_tcp_socket_write L socket d env).outcome = Outcome.yield ∧
    r.current_thread = L ∧ r.timed_out = 0 ∧ r.bytes = d.bytes ∧
    r.write_data_ref = env.luaL_ref ∧
    (luaio_tcp_socket_write L socket d env).inflight
      = { block := some (p, r), armed := r.timer, pending := true } := by
  have hin : (luaio_tcp_socket_write L socket d env).inflight
      = { block := some (p, r), armed := r.timer, pending := true } := by
    simp [WriteCall.inflight, h]
  refine ⟨?_, ?_, ?_, ?_, ?_, hin⟩ <;>
  · clear hin
    simp only [luaio_tcp_socket_write] at h ⊢
    by_cases h1 : (luaio_tcp_socket_try_write env.uv_try_write d.bufs 0).err = 0
    · by_cases h2 : (luaio_tcp_socket_try_write env.uv_try_write d.bufs 0).bufs.length = 0
      · simp [h1, h2] at h
      · cases harm : arm_timer socket.timeout env.timer_alloc TimerCb.write_timeout with
        | none => simp [h1, h2, harm] at h
        | some ta =>
          obtain ⟨timer, armed⟩ := ta
          cases hp : env.palloc with
          | none => simp [h1, h2, harm, hp] at h
          | some q =>
            by_cases he : env.uv_write2 = 0
            · simp [h1, h2, harm, hp, he] at h ⊢
              try (rw [← h.2])
            · simp [h1, h2, harm, hp, he] at h
    · simp [h1] at h

/-- What a `socket:write_async` call that leaves a request in flight has done. -/
theorem write_async_req_some (L : Thread) (socket : luaio_tcp_socket_t) (d : CheckedData)
    (env : WriteEnv) (p : ReqPtr) (r : luaio_tcp_write_req_t)
    (h : (luaio_tcp_socket_write_async L socket d env).req = some (p, r)) :
    (luaio_tcp_socket_write_async L socket d env).outcome = Outcome.ret [(d.bytes : Int), 0] ∧
    r.write_data_ref = env.luaL_ref ∧
    (luaio_tcp_socket_write_async L socket d env).inflight
      = { block := some (p, r), armed := r.timer, pending := true } := by
  have hin : (luaio_tcp_socket_write_async L socket d env).inflight
      = { block := some (p, r), armed := r.timer, pending := true } := by
    simp [WriteCall.inflight, h]
  refine ⟨?_, ?_, hin⟩ <;>
  · clear hin
    simp only [luaio_tcp_socket_write_async] at h ⊢
    by_cases h1 : (luaio_tcp_socket_try_write env.uv_try_write d.bufs 0).err = 0
    · by_cases h2 : (luaio_tcp_socket_try_write env.uv_try_write d.bufs 0).bufs.length = 0
      · simp [h1, h2] at h
      · cases harm : arm_timer socket.timeout env.timer_alloc TimerCb.write_async_timeout with
        | none => simp [h1, h2, harm] at h
        | some ta =>
          obtain ⟨timer, armed⟩ := ta
          cases hp : env.palloc with
          | none => simp [h1, h2, harm, hp] at h
          | some q =>
            by_cases he : env.uv_write2 = 0
            · simp [h1, h2, harm, hp, he] at h ⊢
              try (rw [← h.2])
            · simp [h1, h2, harm, hp, he] at h
    · simp [h1] at h

theorem trim_total (bufs : List uv_buf_t) :
    ∀ n, n ≤ iovTotal bufs → iovTotal (trim bufs n) + n = iovTotal bufs := by
  induction bufs with
  | nil => intro n hn; simp [iovTotal] at hn; simp [trim, iovTotal, hn]
  | cons b rest ih =>
    intro n hn
    rw [iovTotal_cons] at hn
    unfold trim
    by_cases h0 : n = 0
    · simp [h0]
    · rw [if_neg h0]
      by_cases hlt : b.len > n
      · rw [if_pos hlt, iovTotal_cons, iovTotal_cons]
        simp only
        omega
      · rw [if_neg hlt, iovTotal_cons]
        have := ih (n - b.len) (by omega)
        omega

/-- After `luaio_tcp_socket_try_write` returned 0, the bytes it reports as written
and the bytes left in the iovec add up to the iovec's total, as long as the reactor
accepted no more than it was offered. -/
theorem try_write_total (uv_try_write : Int) (bufs : List uv_buf_t)
    (hle : uv_try_write ≤ (iovTotal bufs : Int))
    (herr : (luaio_tcp_socket_try_write uv_try_write bufs 0).err = 0) :
    (luaio_tcp_socket_try_write uv_try_write bufs 0).written_bytes
      + iovTotal (luaio_tcp_socket_try_write uv_try_write bufs 0).bufs = iovTotal bufs := by
  by_cases h1 : uv_try_write = UV_ENOSYS ∨ uv_try_write = UV_EAGAIN
  · simp [luaio_tcp_socket_try_write, h1]
  · by_cases h2 : uv_try_write < 0
    · simp [luaio_tcp_socket_try_write, h1, h2] at herr
      omega
    · obtain ⟨n, rfl⟩ := Int.eq_ofNat_of_zero_le (by omega : 0 ≤ uv_try_write)
      rw [try_write_accepts]
      have := trim_total bufs n (by omega)
      simp only
      omega

/-! ## Lemmas on the read buffer -/

/-- The dispatcher `socket:read()` does not touch the read buffer. -/
theorem read_keeps_buffer (L : Thread) (socket : luaio_tcp_socket_t) (env : ReadEnv) :
    (luaio_tcp_socket_read L socket env).1.read_buffer = socket.read_buffer := by
  unfold luaio_tcp_socket_read
  cases hb : socket.read_buffer with
  | none => simp [hb]
  | some b =>
    cases harm : arm_timer socket.timeout env.timer_alloc TimerCb.read_timeout with
    | none => simp [hb]
    | some ta =>
      obtain ⟨timer, armed⟩ := ta
      by_cases he : env.uv_read_start = 0 <;> simp [he, hb]

theorem BufWorld.step_read (w w1 : BufWorld) (L : Thread) (env : ReadEnv)
    (hstep : w.step (BufEvent.read L env) = some w1) :
    w1.socket.read_buffer = w.socket.read_buffer ∧ w1.fresh = false := by
  have hbuf := read_keeps_buffer L w.socket env
  cases hr : w.reading with
  | true => simp [BufWorld.step, hr] at hstep
  | false =>
    rcases hres : luaio_tcp_socket_read L w.socket env with ⟨s, o, log⟩
    rw [hres] at hbuf
    cases o <;>
      · simp [BufWorld.step, hr, hres] at hstep
        subst hstep
        exact ⟨hbuf, rfl⟩

theorem BufWorld.step_inv (w w1 : BufWorld) (e : BufEvent) (hinv : w.inv)
    (hfit : w.fits_last e = true) (hstep : w.step e = some w1) :
    w1.inv ∧ ∃ b b1, w.socket.read_buffer = some b ∧
      w1.socket.read_buffer = some b1 ∧ (b1.capacity ≠ 0 → b1.ordered) ∧
      (b.capacity ≠ 0 → b.write_pos ≤ b1.write_pos ∧ b1.capacity ≠ 0) := by
  obtain ⟨b, hb, hord, hfresh⟩ := hinv
  cases e with
  | read L env =>
    obtain ⟨hbuf, hf⟩ := BufWorld.step_read w w1 L env hstep
    have hb1 : w1.socket.read_buffer = some b := by rw [hbuf, hb]
    exact ⟨⟨b, hb1, hord, by simp [hf]⟩, b, b, hb, hb1, hord,
      fun h => ⟨Nat.le_refl _, h⟩⟩
  | onalloc pool =>
    have hr : w.reading = true := by
      by_contra hne
      simp [BufWorld.step, hne] at hstep
    by_cases hcap : b.capacity = 0
    · cases pool with
      | none =>
        simp [BufWorld.step, hr, luaio_tcp_socket_onalloc, hb, hcap, reading_after] at hstep
        subst hstep
        exact ⟨⟨b, hb, hord, by simp⟩, b, b, hb, hb, hord, fun h => absurd hcap h⟩
      | some sc =>
        obtain ⟨start, capacity⟩ := sc
        simp [BufWorld.step, hr, luaio_tcp_socket_onalloc, hb, hcap, reading_after] at hstep
        subst hstep
        refine ⟨⟨b.allocated start capacity, rfl, ?_, ?_⟩, b, b.allocated start capacity, hb,
          rfl, ?_, fun h => absurd hcap h⟩
        · intro _; simp [luaio_buffer_t.ordered, luaio_buffer_t.allocated]
        · intro _; simp [BufWorld.exposed_len, luaio_buffer_t.allocated]
          omega
        · intro _; simp [luaio_buffer_t.ordered, luaio_buffer_t.allocated]
    · simp [BufWorld.step, hr, luaio_tcp_socket_onalloc, hb, hcap, reading_after] at hstep
      subst hstep
      exact ⟨⟨b, hb, hord, by simp [BufWorld.exposed_len, hcap]⟩, b, b, hb, hb, hord,
        fun _ => ⟨Nat.le_refl _, hcap⟩⟩
  | onread nread =>
    have hrf : w.reading = true ∧ w.fresh = true := by
      by_contra hne
      have : (w.reading && w.fresh) = false := by
        cases hr : w.reading <;> cases hf : w.fresh <;> simp_all
      simp [BufWorld.step, this] at hstep
    obtain ⟨hr, hf⟩ := hrf
    by_cases h0 : nread = 0
    · simp [BufWorld.step, hr, hf, luaio_tcp_socket_onread, h0] at hstep
      subst hstep
      exact ⟨⟨b, hb, hord, by simp⟩, b, b, hb, hb, hord, fun h => ⟨Nat.le_refl _, h⟩⟩
    · by_cases hpos : 0 < nread
      · have hle : nread ≤ (w.exposed_len : Int) := by
          simpa [BufWorld.fits_last] using hfit
        obtain ⟨hroom, hcap⟩ := hfresh hf
        have hcap1 : b.capacity ≠ 0 := hcap (by omega)
        obtain ⟨h1, h2, h3⟩ := hord hcap1
        simp [BufWorld.step, hr, hf, luaio_tcp_socket_onread, h0, hpos, hb] at hstep
        subst hstep
        refine ⟨⟨b.advanced nread.toNat, rfl, ?_, by simp⟩, b, b.advanced nread.toNat, hb,
          rfl, ?_, ?_⟩
        · intro _
          refine ⟨h1, ?_, ?_⟩ <;> simp only [luaio_buffer_t.advanced] <;> omega
        · intro _
          refine ⟨h1, ?_, ?_⟩ <;> simp only [luaio_buffer_t.advanced] <;> omega
        · intro _
          exact ⟨by simp only [luaio_buffer_t.advanced]; omega, hcap1⟩
      · simp [BufWorld.step, hr, hf, luaio_tcp_socket_onread, h0, hpos] at hstep
        subst hstep
        exact ⟨⟨b, hb, hord, by simp⟩, b, b, hb, hb, hord, fun h => ⟨Nat.le_refl _, h⟩⟩

/-- On a socket with a bound read buffer a step is undefined only when the event
cannot happen: no callback's behaviour is undefined. -/
theorem BufWorld.step_defined (w : BufWorld) (e : BufEvent) (hinv : w.inv) :
    (w.step e).isSome =
      match e with
      | BufEvent.read _ _ => !w.reading
      | BufEvent.onalloc _ => w.reading
      | BufEvent.onread _ => w.reading && w.fresh := by
  obtain ⟨b, hb, _, _⟩ := hinv
  cases e with
  | read L env =>
    cases hr : w.reading with
    | true => simp [BufWorld.step, hr]
    | false =>
      rcases hres : luaio_tcp_socket_read L w.socket env with ⟨s, o, log⟩
      cases o <;> simp [BufWorld.step, hr, hres]
  | onalloc pool =>
    cases hr : w.reading with
    | false => simp [BufWorld.step, hr]
    | true =>
      by_cases hcap : b.capacity = 0
      · cases pool <;> simp [BufWorld.step, hr, luaio_tcp_socket_onalloc, hb, hcap]
      · simp [BufWorld.step, hr, luaio_tcp_socket_onalloc, hb, hcap]
  | onread nread =>
    cases hr : w.reading <;> cases hf : w.fresh <;>
      by_cases h0 : nread = 0 <;> by_cases hpos : 0 < nread <;>
      simp [BufWorld.step, hr, hf, luaio_tcp_socket_onread, hb, h0, hpos]

theorem BufWorld.run_inv (evs : List BufEvent) :
    ∀ w : BufWorld, w.inv → (w.run evs).isSome = true →
      w.allows BufWorld.fits_last evs = true →
      ∀ pre e, pre ++ [e] <+: evs →
        ∃ w1 w2 b1 b2, w.run pre = some w1 ∧ w1.step e = some w2 ∧
          w1.socket.read_buffer = some b1 ∧ w2.socket.read_buffer = some b2 ∧
          (b2.capacity ≠ 0 → b2.ordered) ∧
          (b1.capacity ≠ 0 → b1.write_pos ≤ b2.write_pos ∧ b2.capacity ≠ 0) := by
  induction evs with
  | nil =>
    intro w _ _ _ pre e hpre
    simp at hpre
  | cons e0 es ih =>
    intro w hinv hrun hadm pre e hpre
    simp only [BufWorld.allows, Bool.and_eq_true] at hadm
    cases hstep : w.step e0 with
    | none => simp [BufWorld.run, hstep] at hrun
    | some w1 =>
      obtain ⟨hinv1, b, b1, hb, hb1, hord1, hmono⟩ := w.step_inv w1 e0 hinv hadm.1 hstep
      have hrun1 : (w1.run es).isSome = true := by
        simpa [BufWorld.run, hstep] using hrun
      have hadm1 : w1.allows BufWorld.fits_last es = true := by
        have := hadm.2
        rw [hstep] at this
        exact this
      cases pre with
      | nil =>
        simp only [List.nil_append, List.cons_prefix_cons] at hpre
        obtain ⟨rfl, _⟩ := hpre
        exact ⟨w, w1, b, b1, rfl, hstep, hb, hb1, hord1, hmono⟩
      | cons p0 pre1 =>
        simp only [List.cons_append, List.cons_prefix_cons] at hpre
        obtain ⟨rfl, hpre1⟩ := hpre
        obtain ⟨w2, w3, b2, b3, hrun2, rest⟩ := ih w1 hinv1 hrun1 hadm1 pre1 e hpre1
        refine ⟨w2, w3, b2, b3, ?_, rest⟩
        simp only [BufWorld.run, hstep]
        exact hrun2

/-! ## Lemmas on the port check -/

/-- A value that fits a 32-bit `int` survives the narrowing of line 84. -/
theorem to_int32_of_fits (v : Int) (hlo : -(2 ^ 31) ≤ v) (hhi : v < 2 ^ 31) : to_int32 v = v := by
  unfold to_int32
  omega

/-- For an argument that fits a 32-bit `int`, the port is rejected, before any parsing,
exactly when it lies outside `[0, 65535]`. -/
theorem port_check_of_fits (v : Int) (env : AddrEnv) (hlo : -(2 ^ 31) ≤ v) (hhi : v < 2 ^ 31) :
    luaio_tcp_check_port_and_host v env = (PortHost.argerror 2, []) ↔ (v < 0 ∨ 65535 < v) := by
  unfold luaio_tcp_check_port_and_host
  rw [to_int32_of_fits v hlo hhi]
  by_cases h : v < 0 ∨ v > 65535
  · simp [h]
  · have h2 : ¬ (v < 0 ∨ 65535 < v) := h
    simp only [h, if_false, h2, iff_false]
    by_cases h4 : env.uv_ip4_addr = 0
    · simp [h4]
    · by_cases h6 : env.uv_ip6_addr = 0 <;> simp [h4, h6]

/-! ## Claims -/

/-- C1: for every connect request and every write request armed with a timer, in
both orders of the two events (completion callback first, after which the stopped
timer delivers no timeout; or timeout callback first and the completion callback
later), the coroutine that yielded is resumed exactly once (with `UV_ETIMEDOUT` for
connect and `(0, UV_ETIMEDOUT)` for write when the timeout is first; with the
completion status when the completion is first), the request block is passed to
`luaio_pfree` exactly once and the timer is passed to `luaio_timer_free` exactly once;
after the completion callback the reactor has no callback left to deliver. -/
theorem timer_completion_race :
    (∀ (L : Thread) (socket : luaio_tcp_socket_t) (env : ConnectEnv) (p : ReqPtr)
        (r : luaio_tcp_connect_req_t) (t : TimerPtr) (status : Int),
      (luaio_tcp_socket_connect L socket env).req = some (p, r) → r.timer = some t →
      (luaio_tcp_socket_connect L socket env).outcome = Outcome.yield ∧
      (∃ fin log, (luaio_tcp_socket_connect L socket env).inflight.run connect_callbacks
            [Event.complete status] = some (fin, log) ∧
          (∀ e, fin.fire connect_callbacks e = none) ∧
          resumes log = [(L, [status])] ∧ pfrees log = [p] ∧ timer_frees log = [t]) ∧
      (∃ fin log, (luaio_tcp_socket_connect L socket env).inflight.run connect_callbacks
            [Event.timeout, Event.complete status] = some (fin, log) ∧
          (∀ e, fin.fire connect_callbacks e = none) ∧
          resumes log = [(L, [UV_ETIMEDOUT])] ∧ pfrees log = [p] ∧ timer_frees log = [t])) ∧
    (∀ (L : Thread) (socket : luaio_tcp_socket_t) (d : CheckedData) (env : WriteEnv)
        (p : ReqPtr) (r : luaio_tcp_write_req_t) (t : TimerPtr) (status : Int),
      (luaio_tcp_socket_write L socket d env).req = some (p, r) → r.timer = some t →
      (luaio_tcp_socket_write L socket d env).outcome = Outcome.yield ∧
      (∃ fin log, (luaio_tcp_socket_write L socket d env).inflight.run write_callbacks
            [Event.complete status] = some (fin, log) ∧
          (∀ e, fin.fire write_callbacks e = none) ∧
          resumes log = [(L, [if status ≠ 0 then 0 else (d.bytes : Int), status])] ∧
          pfrees log = [p] ∧ timer_frees log = [t]) ∧
      (∃ fin log, (luaio_tcp_socket_write L socket d env).inflight.run write_callbacks
            [Event.timeout, Event.complete status] = some (fin, log) ∧
          (∀ e, fin.fire write_callbacks e = none) ∧
          resumes log = [(L, [0, UV_ETIMEDOUT])] ∧ pfrees log = [p] ∧
          timer_frees log = [t])) := by
  constructor
  · intro L socket env p r t status hreq ht
    obtain ⟨hout, hL, hto, hin⟩ := connect_req_some L socket env p r hreq
    rw [hin, ht]
    refine ⟨hout, ?_, ?_⟩
    · refine ⟨_, _, run_complete connect_callbacks p r (some t) status, ?_, ?_⟩
      · apply fire_done _ _ _ rfl
        simp [armed_after, connect_callbacks, luaio_tcp_socket_onconnect, ht, stop_and_free]
      · simp [connect_callbacks, luaio_tcp_socket_onconnect, ht, hto, hL, stop_and_free,
          resumes, pfrees, timer_frees]
    · refine ⟨_, _, run_timeout_complete connect_callbacks p r t status, ?_, ?_⟩
      · exact fire_done _ _ rfl rfl
      · simp [connect_callbacks, luaio_tcp_socket_onconnect, luaio_tcp_socket_connect_timeout,
          hL, stop_and_free, resumes, pfrees, timer_frees]
  · intro L socket d env p r t status hreq ht
    obtain ⟨hout, hL, hto, hb, _, hin⟩ := write_req_some L socket d env p r hreq
    rw [hin, ht]
    refine ⟨hout, ?_, ?_⟩
    · refine ⟨_, _, run_complete write_callbacks p r (some t) status, ?_, ?_⟩
      · apply fire_done _ _ _ rfl
        simp [armed_after, write_callbacks, luaio_tcp_socket_after_write, ht, stop_and_free]
      · by_cases hs : status = 0 <;> by_cases hr : r.write_data_ref = LUA_NOREF <;>
          simp [write_callbacks, luaio_tcp_socket_after_write, ht, hto, hL, hb, stop_and_free,
            unref_data, resumes, pfrees, timer_frees, hs, hr]
    · refine ⟨_, _, run_timeout_complete write_callbacks p r t status, ?_, ?_⟩
      · exact fire_done _ _ rfl rfl
      · by_cases hr : r.write_data_ref = LUA_NOREF <;>
          simp [write_callbacks, luaio_tcp_socket_after_write, luaio_tcp_socket_write_timeout,
            hL, stop_and_free, unref_data, resumes, pfrees, timer_frees, hr]

/-- Witness for C1: a connect and a write on a socket with a 50 ms timeout. -/
theorem timer_completion_race_witness :
    (luaio_tcp_socket_connect 1 sample_socket sample_connect_env).outcome = Outcome.yield ∧
    (luaio_tcp_socket_write 1 sample_socket sample_data (sample_write_env 1)).outcome
      = Outcome.yield :=
  ⟨(timer_completion_race.1 1 sample_socket sample_connect_env 9
      { current_thread := 1, timer := some 7, timed_out := 0 } 7 0 (by decide) (by decide)).1,
   (timer_completion_race.2 1 sample_socket sample_data (sample_write_env 1) 9
      { current_thread := 1, timer := some 7, bytes := 4, write_data_ref := 3, timed_out := 0 }
      7 0 (by decide) (by decide)).1⟩

/-- C3: for every iovec and every accepted byte count `n` between 0 and the total
length, `luaio_tcp_socket_try_write` returns 0, reports `n` as the written count and
leaves an iovec whose concatenated bytes are the original concatenated bytes with the
first `n` removed. The iovec left is the original with its first `k` slices dropped,
these `k` slices lying wholly inside the first `n` bytes; when `c > 0` bytes of the
next slice were consumed as well, that slice has its base advanced and its length
shortened by `c`; all later slices are unchanged; every non-empty slice lying wholly
inside the first `n` bytes is among the dropped ones. -/
theorem try_write_trims (mem : Nat → Nat) (bufs : List uv_buf_t) (n w0 : Nat)
    (hn : n ≤ iovTotal bufs) :
    (luaio_tcp_socket_try_write (n : Int) bufs w0).err = 0 ∧
    (luaio_tcp_socket_try_write (n : Int) bufs w0).written_bytes = n ∧
    iovBytes mem (luaio_tcp_socket_try_write (n : Int) bufs w0).bufs
      = (iovBytes mem bufs).drop n ∧
    ∃ k c, k ≤ bufs.length ∧ iovTotal (bufs.take k) + c = n ∧
      ((c = 0 ∧ (luaio_tcp_socket_try_write (n : Int) bufs w0).bufs = bufs.drop k) ∨
        (0 < c ∧ ∃ b rest, bufs.drop k = b :: rest ∧ c < b.len ∧
          (luaio_tcp_socket_try_write (n : Int) bufs w0).bufs
            = { base := b.base + c, len := b.len - c } :: rest)) ∧
      (∀ i, ∀ h : i < bufs.length,
        0 < (bufs.get ⟨i, h⟩).len → iovTotal (bufs.take (i + 1)) ≤ n → i < k) := by
  rw [try_write_accepts]
  exact ⟨rfl, rfl, trim_bytes mem bufs n hn, trim_shape bufs n hn⟩

/-- Witness for C3: three slices of 3, 0 and 5 bytes, 4 bytes accepted. -/
theorem try_write_trims_witness :
    4 ≤ iovTotal [{ base := 100, len := 3 }, { base := 150, len := 0 }, { base := 200, len := 5 }] ∧
    iovBytes (fun a => a) (luaio_tcp_socket_try_write ((4 : Nat) : Int)
        [{ base := 100, len := 3 }, { base := 150, len := 0 }, { base := 200, len := 5 }] 0).bufs
      = (iovBytes (fun a => a)
          [{ base := 100, len := 3 }, { base := 150, len := 0 }, { base := 200, len := 5 }]).drop 4 :=
  ⟨by decide, (try_write_trims (fun a => a)
    [{ base := 100, len := 3 }, { base := 150, len := 0 }, { base := 200, len := 5 }] 4 0
    (by decide)).2.2.1⟩

/-- C2 (evaluation at the failing schedule): a `write` and a `write_async` of a
4-byte string of which `uv_try_write` accepts 1 byte each queue a request and anchor
the data once, under reference 3. When the timeout callback fires first and the
completion callback later, `luaL_unref` is called on reference 3 twice: the timeout
callback releases the anchor without resetting `write_data_ref`, and the completion
callback releases it again. -/
theorem queued_write_anchor_released_twice :
    (luaio_tcp_socket_write 1 sample_socket sample_data (sample_write_env 1)).effects.count
        (Effect.ref 1 3) = 1 ∧
    ((luaio_tcp_socket_write 1 sample_socket sample_data (sample_write_env 1)).inflight.run
        write_callbacks [Event.timeout, Event.complete 0]).map (fun x => unrefs x.2)
      = some [3, 3] ∧
    (luaio_tcp_socket_write_async 1 sample_socket sample_data
        (sample_write_env 1)).effects.count (Effect.ref 1 3) = 1 ∧
    ((luaio_tcp_socket_write_async 1 sample_socket sample_data (sample_write_env 1)).inflight.run
        (write_async_callbacks 1) [Event.timeout, Event.complete 0]).map (fun x => unrefs x.2)
      = some [3, 3] := by
  decide

/-- C4 (evaluation at the failing input): the data is a list of a 2-byte string and
an empty string, and `uv_try_write` accepts all 2 bytes. The trimming loop stops as
soon as the accepted bytes are used up, so the zero-length slice stays in the iovec,
`vcount` is 1, and `write` arms a timer, allocates a request, submits a queued write
of the empty slice and yields; `write_async` does the same before it returns `(2, 0)`. -/
theorem full_acceptance_with_empty_tail_is_queued :
    iovTotal sample_data_empty_tail.bufs = 2 ∧
    luaio_tcp_socket_write 1 sample_socket sample_data_empty_tail (sample_write_env 2) =
      { outcome := Outcome.yield,
        effects := [Effect.timer_alloc 7, Effect.timer_start 7 TimerCb.write_timeout 50,
          Effect.palloc 9,
          Effect.write2 9 [{ base := 2000, len := 0 }] WriteCb.after_write 0,
          Effect.ref 1 3],
        req := some (9, { current_thread := 1, timer := some 7, bytes := 2,
                          write_data_ref := 3, timed_out := 0 }) } ∧
    luaio_tcp_socket_write_async 1 sample_socket sample_data_empty_tail (sample_write_env 2) =
      { outcome := Outcome.ret [2, 0],
        effects := [Effect.timer_alloc 7, Effect.timer_start 7 TimerCb.write_async_timeout 50,
          Effect.palloc 9,
          Effect.write2 9 [{ base := 2000, len := 0 }] WriteCb.after_write_async 0,
          Effect.ref 1 3],
        req := some (9, { current_thread := 0, timer := some 7, bytes := 0,
                          write_data_ref := 3, timed_out := 0 }) } := by
  decide

/-- C8 (evaluation at the failing executions): a `read` on a socket with a 50 ms
timeout arms timer 7 (acquired once). Whether the read ends by data, by an error, by
the timeout or by an allocation failure, the callback that ends it frees the timer but
leaves `socket->timer` pointing at it; when the socket is closed afterwards, the
close-completion callback frees the same timer a second time. -/
theorem read_timer_released_twice_on_close :
    ((SockWorld.idle sample_socket).run
        [SockEvent.read 1 sample_read_env, SockEvent.onalloc (some (10000, 4)),
         SockEvent.onread 4, SockEvent.close 1, SockEvent.onclose]).map
      (fun x => (x.2.count (Effect.timer_alloc 7), timer_frees x.2)) = some (1, [7, 7]) ∧
    ((SockWorld.idle sample_socket).run
        [SockEvent.read 1 sample_read_env, SockEvent.onalloc (some (10000, 4)),
         SockEvent.onread (-104), SockEvent.close 1, SockEvent.onclose]).map
      (fun x => (x.2.count (Effect.timer_alloc 7), timer_frees x.2)) = some (1, [7, 7]) ∧
    ((SockWorld.idle sample_socket).run
        [SockEvent.read 1 sample_read_env, SockEvent.read_timeout,
         SockEvent.close 1, SockEvent.onclose]).map
      (fun x => (x.2.count (Effect.timer_alloc 7), timer_frees x.2)) = some (1, [7, 7]) ∧
    ((SockWorld.idle sample_socket).run
        [SockEvent.read 1 sample_read_env, SockEvent.onalloc none,
         SockEvent.close 1, SockEvent.onclose]).map
      (fun x => (x.2.count (Effect.timer_alloc 7), timer_frees x.2)) = some (1, [7, 7]) := by
  decide

/-- C5, counterexample: a queued `write` of a 4-byte string, not timed out, whose
completion callback fires with status -32, resumes the coroutine with `(0, -32)`,
not with `(4, -32)`. -/
theorem write_completion_error_resumes_with_zero :
    sample_data.bytes = 4 ∧
    ((luaio_tcp_socket_write 1 sample_socket sample_data (sample_write_env 1)).inflight.run
        write_callbacks [Event.complete (-32)]).map (fun x => resumes x.2)
      = some [(1, [0, -32])] ∧
    ((luaio_tcp_socket_write 1 sample_socket sample_data (sample_write_env 1)).inflight.run
        write_callbacks [Event.complete (-32)]).map (fun x => resumes x.2)
      ≠ some [(1, [4, -32])] := by
  decide

/-- C5, amended: for every queued `write` that was not timed out, when the completion
callback fires with status `s` the coroutine is resumed once, with `(bytes, 0)` when
`s = 0` and with `(0, s)` when `s ≠ 0`, where `bytes` is the total byte length the
data adapter reported for the data; when that total is the byte length of the iovec
and the reactor accepted no more than it was offered, it is the bytes accepted by
`try_write` plus the bytes queued. -/
theorem write_completion_result (L : Thread) (socket : luaio_tcp_socket_t) (d : CheckedData)
    (env : WriteEnv) (p : ReqPtr) (r : luaio_tcp_write_req_t) (status : Int)
    (hq : (luaio_tcp_socket_write L socket d env).req = some (p, r))
    (hbytes : d.bytes = iovTotal d.bufs)
    (hle : env.uv_try_write ≤ (iovTotal d.bufs : Int)) :
    (∃ fin log, (luaio_tcp_socket_write L socket d env).inflight.run write_callbacks
          [Event.complete status] = some (fin, log) ∧
        resumes log = [(L, [if status = 0 then (d.bytes : Int) else 0, status])]) ∧
    (∃ queued, Effect.write2 p queued WriteCb.after_write 0
          ∈ (luaio_tcp_socket_write L socket d env).effects ∧
        d.bytes = (luaio_tcp_socket_try_write env.uv_try_write d.bufs 0).written_bytes
          + iovTotal queued) := by
  obtain ⟨_, hL, hto, hb, _, hin⟩ := write_req_some L socket d env p r hq
  constructor
  · rw [hin]
    refine ⟨_, _, run_complete write_callbacks p r r.timer status, ?_⟩
    by_cases hs : status = 0 <;> by_cases hr : r.write_data_ref = LUA_NOREF <;>
      cases ht : r.timer <;>
      simp [write_callbacks, luaio_tcp_socket_after_write, ht, hto, hL, hb, stop_and_free,
        unref_data, resumes, hs, hr]
  · refine ⟨(luaio_tcp_socket_try_write env.uv_try_write d.bufs 0).bufs, ?_, ?_⟩
    · simp only [luaio_tcp_socket_write] at hq ⊢
      by_cases h1 : (luaio_tcp_socket_try_write env.uv_try_write d.bufs 0).err = 0
      · by_cases h2 : (luaio_tcp_socket_try_write env.uv_try_write d.bufs 0).bufs.length = 0
        · simp [h1, h2] at hq
        · cases harm : arm_timer socket.timeout env.timer_alloc TimerCb.write_timeout with
          | none => simp [h1, h2, harm] at hq
          | some ta =>
            obtain ⟨timer, armed⟩ := ta
            cases hp : env.palloc with
            | none => simp [h1, h2, harm, hp] at hq
            | some q =>
              by_cases he : env.uv_write2 = 0
              · simp [h1, h2, harm, hp, he] at hq ⊢
                simp [hq.1]
              · simp [h1, h2, harm, hp, he] at hq
      · simp [h1] at hq
    · have herr : (luaio_tcp_socket_try_write env.uv_try_write d.bufs 0).err = 0 := by
        by_contra hne
        simp [luaio_tcp_socket_write, hne] at hq
      rw [hbytes, try_write_total env.uv_try_write d.bufs hle herr]

/-- Witness for C5 (amended): a 4-byte string of which 1 byte is accepted at once;
the completion reports success. -/
theorem write_completion_result_witness :
    (luaio_tcp_socket_write 1 sample_socket sample_data (sample_write_env 1)).req
      = some (9, { current_thread := 1, timer := some 7, bytes := 4, write_data_ref := 3,
                   timed_out := 0 }) ∧
    sample_data.bytes = iovTotal sample_data.bufs ∧
    (sample_write_env 1).uv_try_write ≤ (iovTotal sample_data.bufs : Int) ∧
    ∃ fin log, (luaio_tcp_socket_write 1 sample_socket sample_data
          (sample_write_env 1)).inflight.run write_callbacks [Event.complete 0]
        = some (fin, log) ∧
      resumes log = [(1, [if (0 : Int) = 0 then (sample_data.bytes : Int) else 0, 0])] :=
  ⟨by decide, by decide, by decide,
    (write_completion_result 1 sample_socket sample_data (sample_write_env 1) 9
      { current_thread := 1, timer := some 7, bytes := 4, write_data_ref := 3, timed_out := 0 }
      0 (by decide) (by decide) (by decide)).1⟩

/-- C6, counterexample: a `write_async` of a 4-byte string of which `uv_try_write`
accepts 1 byte (less than the total), whose queued write is submitted successfully,
returns `(4, 0)`, not `(1, 0)`. -/
theorem write_async_returns_total_not_accepted :
    (luaio_tcp_socket_try_write (sample_write_env 1).uv_try_write sample_data.bufs 0).written_bytes
      = 1 ∧
    1 < iovTotal sample_data.bufs ∧
    (sample_write_env 1).uv_write2 = 0 ∧
    (luaio_tcp_socket_write_async 1 sample_socket sample_data (sample_write_env 1)).outcome
      = Outcome.ret [4, 0] ∧
    (luaio_tcp_socket_write_async 1 sample_socket sample_data (sample_write_env 1)).outcome
      ≠ Outcome.ret [1, 0] := by
  decide

/-- C6, amended: for every `write_async` whose `try_write` accepted only part of the
data (it returned 0 and the written count is below the iovec's total) and whose
queued write was submitted successfully (the timer, when a timeout is configured, and
the request block were obtained, and `uv_write2` returned 0), the call returns
`(bytes, 0)` without yielding, where `bytes` is the total byte length the data adapter
reported for the data, and it leaves the request in flight. -/
theorem write_async_sync_result (L : Thread) (socket : luaio_tcp_socket_t) (d : CheckedData)
    (env : WriteEnv) (p : ReqPtr)
    (hacc : (luaio_tcp_socket_try_write env.uv_try_write d.bufs 0).err = 0)
    (hpart : (luaio_tcp_socket_try_write env.uv_try_write d.bufs 0).written_bytes
      < iovTotal d.bufs)
    (htimer : socket.timeout ≠ 0 → env.timer_alloc ≠ none)
    (hp : env.palloc = some p) (hw : env.uv_write2 = 0) :
    (luaio_tcp_socket_write_async L socket d env).outcome = Outcome.ret [(d.bytes : Int), 0] ∧
    (luaio_tcp_socket_write_async L socket d env).req.isSome = true := by
  have hne : (luaio_tcp_socket_try_write env.uv_try_write d.bufs 0).bufs.length ≠ 0 := by
    intro hlen
    have hnil := List.length_eq_zero.mp hlen
    by_cases h1 : env.uv_try_write = UV_ENOSYS ∨ env.uv_try_write = UV_EAGAIN
    · simp [luaio_tcp_socket_try_write, h1] at hnil hpart
      simp [hnil, iovTotal] at hpart
    · by_cases h2 : env.uv_try_write < 0
      · simp [luaio_tcp_socket_try_write, h1, h2] at hacc
        omega
      · obtain ⟨n, hn⟩ := Int.eq_ofNat_of_zero_le (by omega : 0 ≤ env.uv_try_write)
        rw [hn, try_write_accepts] at hnil hpart
        simp only at hnil hpart
        have htot := trim_total d.bufs n (by omega)
        have hzero : iovTotal ([] : List uv_buf_t) = 0 := rfl
        rw [hnil, hzero] at htot
        omega
  have harm : ∃ timer armed,
      arm_timer socket.timeout env.timer_alloc TimerCb.write_async_timeout
        = some (timer, armed) := by
    unfold arm_timer
    by_cases h0 : socket.timeout = 0
    · simp [h0]
    · cases hta : env.timer_alloc with
      | none => exact absurd hta (htimer h0)
      | some t => simp [h0]
  obtain ⟨timer, armed, harm⟩ := harm
  simp [luaio_tcp_socket_write_async, hacc, hne, harm, hp, hw]

/-- Witness for C6 (amended): a 4-byte string of which 1 byte is accepted at once. -/
theorem write_async_sync_result_witness :
    (luaio_tcp_socket_try_write (sample_write_env 1).uv_try_write sample_data.bufs 0).err = 0 ∧
    (luaio_tcp_socket_try_write (sample_write_env 1).uv_try_write sample_data.bufs 0).written_bytes
      < iovTotal sample_data.bufs ∧
    (luaio_tcp_socket_write_async 1 sample_socket sample_data (sample_write_env 1)).outcome
      = Outcome.ret [(sample_data.bytes : Int), 0] :=
  ⟨by decide, by decide,
    (write_async_sync_result 1 sample_socket sample_data (sample_write_env 1) 9
      (by decide) (by decide) (by decide) (by decide) (by decide)).1⟩

/-- C7: for every queued `write_async` request, the call itself and every sequence
of its callbacks (the completion alone; or, when a timer was armed, the timeout
followed by the completion) resume no coroutine, the request block is passed to
`luaio_pfree` exactly once, and the timer, when one was armed, is passed to
`luaio_timer_free` exactly once (no timer is freed when none was armed); after the
completion callback the reactor has no callback left to deliver. -/
theorem write_async_fire_and_forget (main_thread L : Thread) (socket : luaio_tcp_socket_t)
    (d : CheckedData) (env : WriteEnv) (p : ReqPtr) (r : luaio_tcp_write_req_t) (status : Int)
    (hq : (luaio_tcp_socket_write_async L socket d env).req = some (p, r)) :
    resumes (luaio_tcp_socket_write_async L socket d env).effects = [] ∧
    (∃ fin log, (luaio_tcp_socket_write_async L socket d env).inflight.run
          (write_async_callbacks main_thread) [Event.complete status] = some (fin, log) ∧
        (∀ e, fin.fire (write_async_callbacks main_thread) e = none) ∧
        resumes log = [] ∧ pfrees log = [p] ∧ timer_frees log = r.timer.toList) ∧
    (∀ t, r.timer = some t →
      ∃ fin log, (luaio_tcp_socket_write_async L socket d env).inflight.run
          (write_async_callbacks main_thread) [Event.timeout, Event.complete status]
          = some (fin, log) ∧
        (∀ e, fin.fire (write_async_callbacks main_thread) e = none) ∧
        resumes log = [] ∧ pfrees log = [p] ∧ timer_frees log = [t]) := by
  obtain ⟨_, _, hin⟩ := write_async_req_some L socket d env p r hq
  refine ⟨?_, ?_, ?_⟩
  · simp only [luaio_tcp_socket_write_async] at hq ⊢
    by_cases h1 : (luaio_tcp_socket_try_write env.uv_try_write d.bufs 0).err = 0
    · by_cases h2 : (luaio_tcp_socket_try_write env.uv_try_write d.bufs 0).bufs.length = 0
      · simp [h1, h2] at hq
      · cases harm : arm_timer socket.timeout env.timer_alloc TimerCb.write_async_timeout with
        | none => simp [h1, h2, harm] at hq
        | some ta =>
          obtain ⟨timer, armed⟩ := ta
          cases hp : env.palloc with
          | none => simp [h1, h2, harm, hp] at hq
          | some q =>
            by_cases he : env.uv_write2 = 0
            · have harmed : resumes armed = [] := by
                unfold arm_timer at harm
                by_cases h0 : socket.timeout = 0
                · simp [h0] at harm
                  rw [harm.2]; rfl
                · cases hta : env.timer_alloc with
                  | none => simp [h0, hta] at harm
                  | some t =>
                    simp [h0, hta] at harm
                    rw [← harm.2]; rfl
              cases htmp : d.tmp <;>
                simp [h1, h2, harm, hp, he, resumes_append, harmed, resumes, free_scratch, htmp]
            · simp [h1, h2, harm, hp, he] at hq
    · simp [h1] at hq
  · rw [hin]
    refine ⟨_, _, run_complete (write_async_callbacks main_thread) p r r.timer status, ?_, ?_⟩
    · apply fire_done _ _ _ rfl
      cases ht : r.timer <;>
        simp [armed_after, write_async_callbacks, luaio_tcp_socket_after_write_async, ht,
          stop_and_free]
    · by_cases hr : r.write_data_ref = LUA_NOREF <;> cases ht : r.timer <;>
        simp [write_async_callbacks, luaio_tcp_socket_after_write_async, ht, stop_and_free,
          unref_data, resumes, pfrees, timer_frees, hr]
  · intro t ht
    rw [hin, ht]
    refine ⟨_, _, run_timeout_complete (write_async_callbacks main_thread) p r t status,
      fire_done _ _ rfl rfl, ?_⟩
    by_cases hr : r.write_data_ref = LUA_NOREF <;>
      simp [write_async_callbacks, luaio_tcp_socket_after_write_async,
        luaio_tcp_socket_write_async_timeout, stop_and_free, unref_data, resumes, pfrees,
        timer_frees, hr]

/-- Witness for C7: a `write_async` of a 4-byte string of which 1 byte is accepted at
once, on a socket with a 50 ms timeout. -/
theorem write_async_fire_and_forget_witness :
    (luaio_tcp_socket_write_async 1 sample_socket sample_data (sample_write_env 1)).req
      = some (9, { current_thread := 0, timer := some 7, bytes := 0, write_data_ref := 3,
                   timed_out := 0 }) ∧
    resumes (luaio_tcp_socket_write_async 1 sample_socket sample_data
      (sample_write_env 1)).effects = [] :=
  ⟨by decide,
    (write_async_fire_and_forget 1 1 sample_socket sample_data (sample_write_env 1) 9
      { current_thread := 0, timer := some 7, bytes := 0, write_data_ref := 3, timed_out := 0 }
      0 (by decide)).1⟩

/-- C9: for every sequence of buffer-request (`onalloc`) and read-completion
(`onread`) callbacks, with the `socket:read()` calls that start the reads, that host
and reactor deliver to a socket with a bound read buffer (unallocated, or allocated
with ordered cursors), where each reported `nread` is at most the length of the fill
slice last exposed to the reactor: every event of the sequence is defined, after each
of them `start <= read_pos <= write_pos <= end` holds if the buffer is allocated
(`capacity != 0`), and an event that finds the buffer allocated leaves it allocated and
does not decrease `write_pos`. -/
theorem read_buffer_cursor_invariant (socket : luaio_tcp_socket_t) (b0 : luaio_buffer_t)
    (evs : List BufEvent) (hb : socket.read_buffer = some b0)
    (h0 : b0.capacity ≠ 0 → b0.ordered)
    (hrun : ((BufWorld.init socket).run evs).isSome = true)
    (hfit : (BufWorld.init socket).allows BufWorld.fits_last evs = true) :
    ∀ pre e, pre ++ [e] <+: evs →
      ∃ w1 w2 b1 b2, (BufWorld.init socket).run pre = some w1 ∧ w1.step e = some w2 ∧
        w1.socket.read_buffer = some b1 ∧ w2.socket.read_buffer = some b2 ∧
        (b2.capacity ≠ 0 → b2.ordered) ∧
        (b1.capacity ≠ 0 → b1.write_pos ≤ b2.write_pos ∧ b2.capacity ≠ 0) := by
  apply BufWorld.run_inv evs (BufWorld.init socket) _ hrun hfit
  exact ⟨b0, hb, h0, by simp [BufWorld.init]⟩

/-- Witness for C9: a read allocates the buffer (4 bytes at address 100) and ends with
3 bytes; a second read is given the last byte of room and ends with 1 byte. -/
theorem read_buffer_cursor_invariant_witness :
    sample_socket.read_buffer = some { capacity := 0, size := 4, start := 0, read_pos := 0,
                                       write_pos := 0, end_ := 0 } ∧
    ((BufWorld.init sample_socket).run
        [BufEvent.read 1 sample_read_env, BufEvent.onalloc (some (100, 4)), BufEvent.onread 3,
         BufEvent.read 1 sample_read_env, BufEvent.onalloc none, BufEvent.onread 1]).map
      (fun w => w.socket.read_buffer)
      = some (some { capacity := 4, size := 4, start := 100, read_pos := 100,
                     write_pos := 104, end_ := 104 }) ∧
    (BufWorld.init sample_socket).allows BufWorld.fits_last
        [BufEvent.read 1 sample_read_env, BufEvent.onalloc (some (100, 4)), BufEvent.onread 3,
         BufEvent.read 1 sample_read_env, BufEvent.onalloc none, BufEvent.onread 1] = true ∧
    ∃ w1 w2 b1 b2,
      (BufWorld.init sample_socket).run
          [BufEvent.read 1 sample_read_env, BufEvent.onalloc (some (100, 4)),
           BufEvent.onread 3, BufEvent.read 1 sample_read_env, BufEvent.onalloc none]
        = some w1 ∧
      w1.step (BufEvent.onread 1) = some w2 ∧
      w1.socket.read_buffer = some b1 ∧ w2.socket.read_buffer = some b2 ∧
      (b2.capacity ≠ 0 → b2.ordered) ∧
      (b1.capacity ≠ 0 → b1.write_pos ≤ b2.write_pos ∧ b2.capacity ≠ 0) :=
  ⟨by decide, by decide, by decide,
    read_buffer_cursor_invariant sample_socket
      { capacity := 0, size := 4, start := 0, read_pos := 0, write_pos := 0, end_ := 0 }
      [BufEvent.read 1 sample_read_env, BufEvent.onalloc (some (100, 4)), BufEvent.onread 3,
       BufEvent.read 1 sample_read_env, BufEvent.onalloc none, BufEvent.onread 1]
      (by decide) (by decide) (by decide) (by decide)
      [BufEvent.read 1 sample_read_env, BufEvent.onalloc (some (100, 4)), BufEvent.onread 3,
       BufEvent.read 1 sample_read_env, BufEvent.onalloc none]
      (BufEvent.onread 1) (List.prefix_refl _)⟩

/-- C10: for every read-completion callback delivered to a socket whose reads are
started and whose read buffer is bound: if `nread == 0` nothing changes and no call
is made (reads keep running, the timer stays armed, no coroutine is resumed); if
`nread > 0` reads are stopped, `write_pos` is advanced by exactly `nread`, the other
buffer fields are unchanged, and the coroutine is resumed once with the single value
`nread`; if `nread < 0` reads are stopped, the read buffer is unchanged and the
coroutine is resumed once with the single value `nread`. -/
theorem onread_case_analysis (w : SockWorld) (buffer : luaio_buffer_t) (nread : Int)
    (hreading : w.reading = true) (hbuf : w.socket.read_buffer = some buffer) :
    (nread = 0 → w.step (SockEvent.onread nread) = some (w, [])) ∧
    (0 < nread → ∃ w1 log, w.step (SockEvent.onread nread) = some (w1, log) ∧
      w1.reading = false ∧ Effect.read_stop ∈ log ∧
      w1.socket.read_buffer = some { buffer with write_pos := buffer.write_pos + nread.toNat } ∧
      ((buffer.write_pos + nread.toNat : Nat) : Int) = (buffer.write_pos : Int) + nread ∧
      resumes log = [(w.socket.current_thread, [nread])]) ∧
    (nread < 0 → ∃ w1 log, w.step (SockEvent.onread nread) = some (w1, log) ∧
      w1.reading = false ∧ Effect.read_stop ∈ log ∧
      w1.socket.read_buffer = some buffer ∧
      resumes log = [(w.socket.current_thread, [nread])]) := by
  refine ⟨?_, ?_, ?_⟩
  · intro h0
    cases w with
    | mk socket reading armed closing closed =>
      cases armed <;>
        simp_all [SockWorld.step, luaio_tcp_socket_onread, reading_after, armed_after]
  · intro hpos
    have h0 : nread ≠ 0 := by omega
    have hcb : luaio_tcp_socket_onread w.socket nread
        = some ({ w.socket with read_buffer := some (buffer.advanced nread.toNat) },
            [Effect.read_stop] ++ stop_and_free w.socket.timer ++
              [Effect.resume w.socket.current_thread [nread]]) := by
      simp [luaio_tcp_socket_onread, h0, hpos, hbuf, luaio_buffer_t.advanced]
    have hstep : w.step (SockEvent.onread nread)
        = some ({ w with
                    socket := { w.socket with read_buffer := some (buffer.advanced nread.toNat) },
                    reading := false,
                    armed := armed_after w.armed ([Effect.read_stop] ++
                      stop_and_free w.socket.timer ++
                      [Effect.resume w.socket.current_thread [nread]]) },
            [Effect.read_stop] ++ stop_and_free w.socket.timer ++
              [Effect.resume w.socket.current_thread [nread]]) := by
      simp [SockWorld.step, hreading, hcb, reading_after]
    refine ⟨_, _, hstep, rfl, by simp, rfl, by omega, ?_⟩
    cases w.socket.timer <;> simp [stop_and_free, resumes]
  · intro hneg
    have h0 : nread ≠ 0 := by omega
    have hpos : ¬ 0 < nread := by omega
    have hcb : luaio_tcp_socket_onread w.socket nread
        = some (w.socket,
            [Effect.read_stop] ++ stop_and_free w.socket.timer ++
              [Effect.resume w.socket.current_thread [nread]]) := by
      simp [luaio_tcp_socket_onread, h0, hpos]
    have hstep : w.step (SockEvent.onread nread)
        = some ({ w with
                    reading := false,
                    armed := armed_after w.armed ([Effect.read_stop] ++
                      stop_and_free w.socket.timer ++
                      [Effect.resume w.socket.current_thread [nread]]) },
            [Effect.read_stop] ++ stop_and_free w.socket.timer ++
              [Effect.resume w.socket.current_thread [nread]]) := by
      simp [SockWorld.step, hreading, hcb, reading_after]
    refine ⟨_, _, hstep, rfl, by simp, hbuf, ?_⟩
    cases w.socket.timer <;> simp [stop_and_free, resumes]

/-- Witness for C10: a read in flight on a socket with an allocated 4-byte buffer;
the read callback reports 3 bytes. -/
theorem onread_case_analysis_witness :
    ∃ w1 log,
      SockWorld.step
        { socket := { sample_socket with
            read_buffer := some { capacity := 4, size := 4, start := 100, read_pos := 100,
                                  write_pos := 100, end_ := 104 } },
          reading := true, armed := none, closing := false, closed := false }
        (SockEvent.onread 3) = some (w1, log) ∧
      w1.reading = false ∧ Effect.read_stop ∈ log ∧
      w1.socket.read_buffer = some { capacity := 4, size := 4, start := 100, read_pos := 100,
                                     write_pos := 100 + (3 : Int).toNat, end_ := 104 } ∧
      (((100 : Nat) + (3 : Int).toNat : Nat) : Int) = ((100 : Nat) : Int) + 3 ∧
      resumes log = [(sample_socket.current_thread, [3])] :=
  (onread_case_analysis
    { socket := { sample_socket with
        read_buffer := some { capacity := 4, size := 4, start := 100, read_pos := 100,
                              write_pos := 100, end_ := 104 } },
      reading := true, armed := none, closing := false, closed := false }
    { capacity := 4, size := 4, start := 100, read_pos := 100, write_pos := 100, end_ := 104 }
    3 rfl rfl).2.1 (by decide)

/-- C11: when the reactor's `uv_try_write` rejects with `UV_EAGAIN` or `UV_ENOSYS`,
`luaio_tcp_socket_try_write` returns 0 and leaves the iovec, its count and the written
count unchanged; `write` and `write_async` then behave exactly as if zero bytes had been
accepted, and with a non-empty iovec they take the queued path (once the timer, when
configured, and the request block are obtained and the submit succeeds, the whole
iovec is queued; `write` yields). For every other negative result `err`,
`luaio_tcp_socket_try_write` returns `err` with everything unchanged, and `write` and
`write_async` return `(0, err)` having done nothing but free the stack scratch: no
timer, no request, no queued write, no yield. -/
theorem try_write_failure_classification :
    (∀ (err : Int) (bufs : List uv_buf_t) (w0 : Nat), err = UV_EAGAIN ∨ err = UV_ENOSYS →
      luaio_tcp_socket_try_write err bufs w0
        = { err := 0, bufs := bufs, written_bytes := w0 }) ∧
    (∀ (L : Thread) (socket : luaio_tcp_socket_t) (d : CheckedData) (env : WriteEnv),
      env.uv_try_write = UV_EAGAIN ∨ env.uv_try_write = UV_ENOSYS →
      luaio_tcp_socket_write L socket d env
        = luaio_tcp_socket_write L socket d { env with uv_try_write := 0 } ∧
      luaio_tcp_socket_write_async L socket d env
        = luaio_tcp_socket_write_async L socket d { env with uv_try_write := 0 }) ∧
    (∀ (L : Thread) (socket : luaio_tcp_socket_t) (d : CheckedData) (env : WriteEnv)
        (p : ReqPtr),
      env.uv_try_write = UV_EAGAIN ∨ env.uv_try_write = UV_ENOSYS → d.bufs ≠ [] →
      (socket.timeout ≠ 0 → env.timer_alloc ≠ none) → env.palloc = some p →
      env.uv_write2 = 0 →
      (luaio_tcp_socket_write L socket d env).outcome = Outcome.yield ∧
      Effect.write2 p d.bufs WriteCb.after_write 0
        ∈ (luaio_tcp_socket_write L socket d env).effects ∧
      (luaio_tcp_socket_write_async L socket d env).outcome
        = Outcome.ret [(d.bytes : Int), 0] ∧
      Effect.write2 p d.bufs WriteCb.after_write_async 0
        ∈ (luaio_tcp_socket_write_async L socket d env).effects) ∧
    (∀ (err : Int) (bufs : List uv_buf_t) (w0 : Nat),
      err < 0 → err ≠ UV_EAGAIN → err ≠ UV_ENOSYS →
      luaio_tcp_socket_try_write err bufs w0
        = { err := err, bufs := bufs, written_bytes := w0 }) ∧
    (∀ (L : Thread) (socket : luaio_tcp_socket_t) (d : CheckedData) (env : WriteEnv),
      env.uv_try_write < 0 → env.uv_try_write ≠ UV_EAGAIN → env.uv_try_write ≠ UV_ENOSYS →
      luaio_tcp_socket_write L socket d env
        = { outcome := Outcome.ret [0, env.uv_try_write], effects := free_scratch d.tmp,
            req := none } ∧
      luaio_tcp_socket_write_async L socket d env
        = { outcome := Outcome.ret [0, env.uv_try_write], effects := free_scratch d.tmp,
            req := none }) := by
  refine ⟨try_write_would_block, ?_, ?_, try_write_fails, ?_⟩
  · intro L socket d env h
    have h0 : luaio_tcp_socket_try_write (0 : Int) d.bufs 0
        = { err := 0, bufs := d.bufs, written_bytes := 0 } := by
      have := try_write_accepts 0 d.bufs 0
      simpa [trim_zero] using this
    constructor
    · simp only [luaio_tcp_socket_write, try_write_would_block _ _ _ h, h0]
    · simp only [luaio_tcp_socket_write_async, try_write_would_block _ _ _ h, h0]
  · intro L socket d env p h hne htimer hp hw
    have hlen : d.bufs.length ≠ 0 := by
      intro hl; exact hne (List.length_eq_zero.mp hl)
    have harm : ∀ cb, ∃ timer armed,
        arm_timer socket.timeout env.timer_alloc cb = some (timer, armed) := by
      intro cb
      unfold arm_timer
      by_cases h0 : socket.timeout = 0
      · simp [h0]
      · cases hta : env.timer_alloc with
        | none => exact absurd hta (htimer h0)
        | some t => simp [h0]
    obtain ⟨t1, a1, harm1⟩ := harm TimerCb.write_timeout
    obtain ⟨t2, a2, harm2⟩ := harm TimerCb.write_async_timeout
    refine ⟨?_, ?_, ?_, ?_⟩
    · simp [luaio_tcp_socket_write, try_write_would_block _ _ _ h, hlen, harm1, hp, hw]
    · simp [luaio_tcp_socket_write, try_write_would_block _ _ _ h, hlen, harm1, hp, hw]
    · simp [luaio_tcp_socket_write_async, try_write_would_block _ _ _ h, hlen, harm2, hp, hw]
    · simp [luaio_tcp_socket_write_async, try_write_would_block _ _ _ h, hlen, harm2, hp, hw]
  · intro L socket d env hneg h1 h2
    have hne : env.uv_try_write ≠ 0 := by omega
    constructor
    · simp [luaio_tcp_socket_write, try_write_fails _ _ _ hneg h1 h2, hne]
    · simp [luaio_tcp_socket_write_async, try_write_fails _ _ _ hneg h1 h2, hne]

/-- Witness for C11: `uv_try_write` rejects a 4-byte string with -32. -/
theorem try_write_failure_classification_witness :
    (sample_write_env (-32)).uv_try_write < 0 ∧
    (sample_write_env (-32)).uv_try_write ≠ UV_EAGAIN ∧
    (sample_write_env (-32)).uv_try_write ≠ UV_ENOSYS ∧
    luaio_tcp_socket_write 1 sample_socket sample_data (sample_write_env (-32))
      = { outcome := Outcome.ret [0, (sample_write_env (-32)).uv_try_write],
          effects := free_scratch sample_data.tmp, req := none } :=
  ⟨by decide, by decide, by decide,
    (try_write_failure_classification.2.2.2.2 1 sample_socket sample_data
      (sample_write_env (-32)) (by decide) (by decide) (by decide)).1⟩

/-- C12 (evaluation at the failing input): the ports -1 and 65536 are rejected with
an argument error on argument 2 before any parsing; but the Lua integer 4294967376
(2^32 + 80), which lies outside `[0, 65535]`, is narrowed to the `int` 80 before the
range test, passes it, and `bind` goes on to `uv_ip4_addr` and `uv_tcp_bind` with port
80, `connect` to `uv_ip4_addr` and the connect submission; so does -4294967216. -/
theorem port_check_accepts_wrapped_port :
    luaio_tcp_check_port_and_host (-1) sample_addr_env = (PortHost.argerror 2, []) ∧
    luaio_tcp_check_port_and_host 65536 sample_addr_env = (PortHost.argerror 2, []) ∧
    is_lua_Integer 4294967376 ∧ ¬ ((0 : Int) ≤ 4294967376 ∧ (4294967376 : Int) ≤ 65535) ∧
    luaio_tcp_check_port_and_host 4294967376 sample_addr_env
      = (PortHost.addr 4 80, [Effect.ip4_addr 80 0]) ∧
    luaio_tcp_socket_bind 4294967376 sample_addr_env 0
      = (Outcome.ret [0], [Effect.ip4_addr 80 0, Effect.tcp_bind 0]) ∧
    luaio_tcp_socket_connect_entry 1 sample_socket 4294967376 sample_addr_env sample_connect_env
      = { outcome := Outcome.yield,
          effects := [Effect.ip4_addr 80 0, Effect.timer_alloc 7,
            Effect.timer_start 7 TimerCb.connect_timeout 50, Effect.palloc 9,
            Effect.tcp_connect 9 0],
          req := some (9, { current_thread := 1, timer := some 7, timed_out := 0 }) } ∧
    is_lua_Integer (-4294967216) ∧
    luaio_tcp_check_port_and_host (-4294967216) sample_addr_env
      = (PortHost.addr 4 80, [Effect.ip4_addr 80 0]) := by
  decide

/-- C14 (evaluation at the failing input): an accept event with status 0 on a
listening socket, the child socket is created and `uv_accept` succeeds. The callback
anchors the new coroutine 2 under reference 5 and resumes it, but calls `luaL_unref`
on nothing and stores reference 5 in no field: the child carries
`thread_ref = LUA_NOREF`, so neither the child's close-completion callback nor the
listener's (which releases references 6 and 4) ever releases reference 5. On the two
failure paths (no child socket; `uv_accept` fails) reference 5 is released once
before the callback returns and the coroutine is not resumed; with a non-zero status
no coroutine is spawned and nothing is anchored. -/
theorem accept_success_never_releases_anchor :
    (luaio_tcp_server_onconnect sample_server 0 sample_accept_env).effects
      = [Effect.newthread 1 2, Effect.ref 1 5, Effect.accept 0, Effect.resume_call 2 1] ∧
    unrefs (luaio_tcp_server_onconnect sample_server 0 sample_accept_env).effects = [] ∧
    (luaio_tcp_server_onconnect sample_server 0 sample_accept_env).child
      = some { timeout := 50, timer := none, thread := 2, current_thread := 2,
               read_buffer := none, thread_ref := LUA_NOREF, onconnect_ref := LUA_NOREF } ∧
    ((luaio_tcp_server_onconnect sample_server 0 sample_accept_env).child.map
      (fun child => unrefs (luaio_tcp_socket_onclose child).2)) = some [] ∧
    unrefs (luaio_tcp_socket_onclose sample_server).2 = [6, 4] ∧
    (luaio_tcp_server_onconnect sample_server 0
        { sample_accept_env with lua_newuserdata := false }).effects
      = [Effect.newthread 1 2, Effect.ref 1 5, Effect.unref 1 5, Effect.log_stderr] ∧
    (luaio_tcp_server_onconnect sample_server 0
        { sample_accept_env with uv_accept := -24 }).effects
      = [Effect.newthread 1 2, Effect.ref 1 5, Effect.accept (-24), Effect.unref 1 5,
         Effect.close_child, Effect.log_stderr] ∧
    (luaio_tcp_server_onconnect sample_server (-24) sample_accept_env).effects
      = [Effect.log_stderr] := by
  decide

/-- C13: on every early-failure path of connect, read, write, write_async and
shutdown (the timer cannot be acquired, the request block cannot be allocated, or the
reactor's submit / read-start call returns an error), the call returns without
yielding, with the error code in its result (`UV_ENOMEM` for a failed acquisition,
the reactor's code otherwise; for write and write_async after the written count), it
leaves no request in flight, and every timer and request block it acquired is released
exactly once, so the numbers of timers and request blocks in use are unchanged. -/
theorem sync_failures_release_everything :
    (∀ (L : Thread) (socket : luaio_tcp_socket_t) (env : ConnectEnv),
      (socket.timeout ≠ 0 ∧ env.timer_alloc = none) ∨ env.palloc = none ∨
        env.uv_tcp_connect ≠ 0 →
      (luaio_tcp_socket_connect L socket env).outcome
        = Outcome.ret [if (socket.timeout ≠ 0 ∧ env.timer_alloc = none) ∨ env.palloc = none
                       then UV_ENOMEM else env.uv_tcp_connect] ∧
      (luaio_tcp_socket_connect L socket env).req = none ∧
      released_all (luaio_tcp_socket_connect L socket env).effects) ∧
    (∀ (L : Thread) (socket : luaio_tcp_socket_t) (env : ReadEnv) (b : luaio_buffer_t),
      socket.read_buffer = some b →
      (socket.timeout ≠ 0 ∧ env.timer_alloc = none) ∨ env.uv_read_start ≠ 0 →
      (luaio_tcp_socket_read L socket env).2.1
        = Outcome.ret [if socket.timeout ≠ 0 ∧ env.timer_alloc = none
                       then UV_ENOMEM else env.uv_read_start] ∧
      (luaio_tcp_socket_read L socket env).1 = socket ∧
      released_all (luaio_tcp_socket_read L socket env).2.2) ∧
    (∀ (L : Thread) (socket : luaio_tcp_socket_t) (d : CheckedData) (env : WriteEnv),
      (luaio_tcp_socket_try_write env.uv_try_write d.bufs 0).err = 0 →
      (luaio_tcp_socket_try_write env.uv_try_write d.bufs 0).bufs.length ≠ 0 →
      (socket.timeout ≠ 0 ∧ env.timer_alloc = none) ∨ env.palloc = none ∨
        env.uv_write2 ≠ 0 →
      (luaio_tcp_socket_write L socket d env).outcome
        = Outcome.ret [((luaio_tcp_socket_try_write env.uv_try_write d.bufs 0).written_bytes : Int),
                       if (socket.timeout ≠ 0 ∧ env.timer_alloc = none) ∨ env.palloc = none
                       then UV_ENOMEM else env.uv_write2] ∧
      (luaio_tcp_socket_write L socket d env).req = none ∧
      released_all (luaio_tcp_socket_write L socket d env).effects) ∧
    (∀ (L : Thread) (socket : luaio_tcp_socket_t) (d : CheckedData) (env : WriteEnv),
      (luaio_tcp_socket_try_write env.uv_try_write d.bufs 0).err = 0 →
      (luaio_tcp_socket_try_write env.uv_try_write d.bufs 0).bufs.length ≠ 0 →
      (socket.timeout ≠ 0 ∧ env.timer_alloc = none) ∨ env.palloc = none ∨
        env.uv_write2 ≠ 0 →
      (luaio_tcp_socket_write_async L socket d env).outcome
        = Outcome.ret [((luaio_tcp_socket_try_write env.uv_try_write d.bufs 0).written_bytes : Int),
                       if (socket.timeout ≠ 0 ∧ env.timer_alloc = none) ∨ env.palloc = none
                       then UV_ENOMEM else env.uv_write2] ∧
      (luaio_tcp_socket_write_async L socket d env).req = none ∧
      released_all (luaio_tcp_socket_write_async L socket d env).effects) ∧
    (∀ (L : Thread) (env : ShutdownEnv),
      env.palloc = none ∨ env.uv_shutdown ≠ 0 →
      (luaio_tcp_socket_shutdown L env).outcome
        = Outcome.ret [if env.palloc = none then UV_ENOMEM else env.uv_shutdown] ∧
      (luaio_tcp_socket_shutdown L env).req = none ∧
      released_all (luaio_tcp_socket_shutdown L env).effects) := by
  refine ⟨?_, ?_, ?_, ?_, ?_⟩
  · intro L socket env h
    unfold luaio_tcp_socket_connect arm_timer
    by_cases h0 : socket.timeout = 0 <;> cases hta : env.timer_alloc <;>
      cases hp : env.palloc <;> by_cases he : env.uv_tcp_connect = 0 <;>
      simp_all [released_all, timer_allocs, timer_frees, pallocs, pfrees, stop_and_free]
  · intro L socket env b hb h
    unfold luaio_tcp_socket_read arm_timer
    by_cases h0 : socket.timeout = 0 <;> cases hta : env.timer_alloc <;>
      by_cases he : env.uv_read_start = 0 <;>
      simp_all [released_all, timer_allocs, timer_frees, pallocs, pfrees, stop_and_free]
  · intro L socket d env h1 h2 h
    unfold luaio_tcp_socket_write arm_timer
    by_cases h0 : socket.timeout = 0 <;> cases hta : env.timer_alloc <;>
      cases hp : env.palloc <;> by_cases he : env.uv_write2 = 0 <;> cases htmp : d.tmp <;>
      simp_all [released_all, timer_allocs, timer_frees, pallocs, pfrees, stop_and_free,
        free_scratch]
  · intro L socket d env h1 h2 h
    unfold luaio_tcp_socket_write_async arm_timer
    by_cases h0 : socket.timeout = 0 <;> cases hta : env.timer_alloc <;>
      cases hp : env.palloc <;> by_cases he : env.uv_write2 = 0 <;> cases htmp : d.tmp <;>
      simp_all [released_all, timer_allocs, timer_frees, pallocs, pfrees, stop_and_free,
        free_scratch]
  · intro L env h
    unfold luaio_tcp_socket_shutdown
    cases hp : env.palloc <;> by_cases he : env.uv_shutdown = 0 <;>
      simp_all [released_all, timer_allocs, timer_frees, pallocs, pfrees]

/-- Witness for C13: a write whose request block cannot be allocated after the timer
was armed, and a shutdown whose submission fails with -107. -/
theorem sync_failures_release_everything_witness :
    (luaio_tcp_socket_write 1 sample_socket sample_data
        { sample_write_env 1 with palloc := none }).effects
      = [Effect.timer_alloc 7, Effect.timer_start 7 TimerCb.write_timeout 50,
         Effect.timer_stop 7, Effect.timer_free 7] ∧
    released_all (luaio_tcp_socket_write 1 sample_socket sample_data
        { sample_write_env 1 with palloc := none }).effects ∧
    (luaio_tcp_socket_shutdown 1 { palloc := some 9, uv_shutdown := -107 }).outcome
      = Outcome.ret [if ({ palloc := some 9, uv_shutdown := -107 } : ShutdownEnv).palloc = none
                     then UV_ENOMEM
                     else ({ palloc := some 9, uv_shutdown := -107 } : ShutdownEnv).uv_shutdown] :=
  ⟨by decide,
    (sync_failures_release_everything.2.2.1 1 sample_socket sample_data
      { sample_write_env 1 with palloc := none } (by decide) (by decide) (by decide)).2.2,
    (sync_failures_release_everything.2.2.2.2 1 { palloc := some 9, uv_shutdown := -107 }
      (by decide)).1⟩

end Luaio
